import Mathlib

/-!
Verification of the grand-router-ai backend core: the deterministic routing
guardrail engine, the hybrid router's fail-soft behaviour, the
`/router/execute` conversation/continuation controller, and the codegen agent
guardrails.  Every definition below is a shallow embedding of the
corresponding Python function from the repository; theorems at the end settle
the specification claims against these definitions.
-/

set_option maxRecDepth 100000

namespace GrandRouter

/-! ## Python-style string primitives

All string manipulation is done on `String.data` (lists of characters) so
that concrete instances reduce inside the kernel. -/

/-- Substring test: models Python's `needle in hay`. -/
def strContains (hay needle : String) : Bool :=
  decide (needle.data <:+: hay.data)

/-- Models `str.lower()` (ASCII case folding, which is all the router's
signal vocabulary needs). -/
def lowerStr (s : String) : String := ⟨s.data.map Char.toLower⟩

/-- Drop leading whitespace characters. -/
def stripLeft (l : List Char) : List Char := l.dropWhile Char.isWhitespace

/-- Drop trailing whitespace characters. -/
def stripRight (l : List Char) : List Char :=
  (l.reverse.dropWhile Char.isWhitespace).reverse

/-- Models Python's `str.strip()`. -/
def pyStrip (s : String) : String := ⟨stripRight (stripLeft s.data)⟩

/-- Models Python's `s or default` for strings (the empty string is falsy). -/
def strOr (s d : String) : String := if s = "" then d else s

/-- Models Python's `opt or default` where `opt` is an optional string. -/
def optStrOr (o : Option String) (d : String) : String :=
  match o with
  | none => d
  | some s => strOr s d

/-- Truthiness of an optional string (`None` and `""` are falsy). -/
def optStrTruthy (o : Option String) : Bool :=
  match o with
  | none => false
  | some s => s ≠ ""

/-- Python `a or b` on optional strings. -/
def optStrOrOpt (a b : Option String) : Option String :=
  if optStrTruthy a then a else b

/-- Models `"sep".join(xs)`. -/
def pyJoin (sep : String) : List String → String
  | [] => ""
  | [x] => x
  | x :: xs => x ++ sep ++ pyJoin sep xs

/-- Models `str.startswith`. -/
def strStartsWith (s pat : String) : Bool := List.isPrefixOf pat.data s.data

/-- Models `str.endswith`. -/
def strEndsWith (s pat : String) : Bool := List.isSuffixOf pat.data s.data

/-- First `n` characters, models Python slicing `s[:n]`. -/
def strTake (s : String) (n : Nat) : String := ⟨s.data.take n⟩

/-- Helper for splitting a character list at newline characters. -/
def splitNlAux : List Char → List Char → List String
  | [], acc => [⟨acc.reverse⟩]
  | '\n' :: t, acc => (⟨acc.reverse⟩ : String) :: splitNlAux t []
  | c :: t, acc => splitNlAux t (c :: acc)

/-- Models `s.split("\n")`. -/
def splitNl (s : String) : List String := splitNlAux s.data []

/-- Helper for Python's `str.splitlines()`. -/
def splitlinesAux : List Char → List Char → List String
  | [], acc => if acc.isEmpty then [] else [⟨acc.reverse⟩]
  | '\r' :: '\n' :: t, acc => (⟨acc.reverse⟩ : String) :: splitlinesAux t []
  | '\r' :: t, acc => (⟨acc.reverse⟩ : String) :: splitlinesAux t []
  | '\n' :: t, acc => (⟨acc.reverse⟩ : String) :: splitlinesAux t []
  | c :: t, acc => splitlinesAux t (c :: acc)

/-- Models Python's `str.splitlines()` (no trailing empty line). -/
def pySplitlines (s : String) : List String := splitlinesAux s.data []

/-- Models `s.replace("\r\n", "\n")` (left-to-right, non-overlapping). -/
def replaceCRLF : List Char → List Char
  | '\r' :: '\n' :: t => '\n' :: replaceCRLF t
  | c :: t => c :: replaceCRLF t
  | [] => []

/-- Word characters for Python's regex `\b` boundaries (`\w` = `[A-Za-z0-9_]`). -/
def isWordChar (c : Char) : Bool := c.isAlphanum || c == '_'

/-! ## Shared routing contracts (`grand_router_contracts`) -/

/-- The `AgentId` enum from `grand_router_contracts.agent`. -/
inductive AgentId where
  | codegen
  | planner
  | projplan
  | chatwriter
  | codechat
  | planchat
  | fullstack
deriving DecidableEq, Repr

/-- The string `.value` of an `AgentId` member (it is a `str` enum). -/
def AgentId.value : AgentId → String
  | .codegen => "codegen"
  | .planner => "planner"
  | .projplan => "projplan"
  | .chatwriter => "chatwriter"
  | .codechat => "codechat"
  | .planchat => "planchat"
  | .fullstack => "fullstack"

/-- `RouteItem` from `grand_router_contracts.router`.  Pydantic constrains
`confidence` to `[0, 1]` (`Field(..., ge=0.0, le=1.0)`); theorems that rely
on that contract carry it as an explicit hypothesis.  Confidences are modelled
as rationals (only comparisons, `max` and clamping are performed on them). -/
structure RouteItem where
  agent_id : AgentId
  confidence : ℚ
  subtask : String
deriving DecidableEq, Repr

/-- `RouterRouteResponse` from `grand_router_contracts.router`
(the constant `api_version` field is omitted). -/
structure RouterRouteResponse where
  routes : List RouteItem := []
  needs_clarification : Bool := false
  clarifying_questions : List String := []
  routing_rationale : Option String := none
deriving DecidableEq, Repr

/-- `AgentRegistryEntry` from `services/agents/registry_models.py`. -/
structure AgentRegistryEntry where
  agent_id : AgentId
  name : String := ""
  description : String := ""
  keywords : List String := []
  entrypoint : String := "m:S"
  version : Option String := none
  enabled : Bool := true
deriving DecidableEq, Repr

/-! ## Guardrail engine (`services/routing/guardrails.py`) -/

/-- `GuardrailResult` dataclass. -/
structure GuardrailResult where
  response : RouterRouteResponse
  changed : Bool
deriving DecidableEq, Repr

/-- `_enabled_agent_ids` (a set of id strings; modelled as the list of values,
membership-equivalent). -/
def enabled_agent_ids (agents : List AgentRegistryEntry) : List String :=
  (agents.filter (fun a => a.enabled)).map (fun a => a.agent_id.value)

/-- The question normalization performed by `clarification_response`:
keep the stripped non-empty questions, cap at 2, fall back to the two
generic questions when none remain. -/
def normalizedQuestions (questions : List String) : List String :=
  let qs0 := (questions.map pyStrip).filter (fun q => q ≠ "")
  let qs1 := if qs0.length > 2 then qs0.take 2 else qs0
  if qs1 = [] then
    ["Could you clarify what you want to achieve?",
     "Should I route this to codegen or projplan?"]
  else qs1

/-- `clarification_response` from `guardrails.py`. -/
def clarification_response (questions : List String) (rationale : String)
    (routes : List RouteItem := []) : RouterRouteResponse :=
  { routes := routes.take 1
    needs_clarification := true
    clarifying_questions := normalizedQuestions questions
    routing_rationale := some rationale }

/-- `_has_any` from `guardrails.py`. -/
def has_any (q : String) (needles : List String) : Bool :=
  needles.any (fun n => strContains q n)

/-- The `code_signals` vocabulary from `apply_guardrails`. -/
def code_signals : List String :=
  ["stack trace", "traceback", "exception", "error", "bug", "debug", "fix",
   "refactor", "patch", "unit test", "failing test", "compile", "build",
   "failing"]

/-- The `plan_signals` vocabulary from `apply_guardrails`. -/
def plan_signals : List String :=
  ["project plan", "execution plan", "detailed execution plan", "mvp plan",
   "plan", "planning", "timeline", "roadmap", "milestone", "milestones",
   "requirements", "dependencies", "raid", "raci", "status update"]

/-- The `code_action_verbs` vocabulary from `apply_guardrails`. -/
def code_action_verbs : List String :=
  ["implement", "code", "write code", "change code", "modify", "edit",
   "update", "add", "remove", "delete", "create", "fix", "debug", "refactor",
   "optimize", "migrate"]

/-- The `code_artifacts` vocabulary from `apply_guardrails`. -/
def code_artifacts : List String :=
  [".py", ".ts", ".tsx", ".js", ".jsx", "fastapi", "react", "openai api",
   "endpoint", "/api", "router", "function", "class", "file ", "diff", "pr",
   "commit", "stack trace", "traceback", "exception", "error:"]

/-- `has_code` before the conflict adjustment (`_has_any(q, code_signals)`). -/
def guardHasCodeRaw (q : String) : Bool := has_any q code_signals

/-- `has_plan` (`_has_any(q, plan_signals)`). -/
def guardHasPlan (q : String) : Bool := has_any q plan_signals

/-- `has_code_action` (`_has_any(q, code_action_verbs)`). -/
def guardHasCodeAction (q : String) : Bool := has_any q code_action_verbs

/-- `has_code_artifact` (`_has_any(q, code_artifacts)`). -/
def guardHasCodeArtifact (q : String) : Bool := has_any q code_artifacts

/-- `has_code` after the adjustment
`if has_plan and has_code and (not (has_code_action and has_code_artifact)):
has_code = False`. -/
def guardHasCode (q : String) : Bool :=
  if guardHasPlan q && guardHasCodeRaw q &&
      !(guardHasCodeAction q && guardHasCodeArtifact q) then
    false
  else
    guardHasCodeRaw q

/-- `apply_guardrails` from `guardrails.py`, translated branch for branch. -/
def apply_guardrails (llm_response : RouterRouteResponse) (query : String)
    (request_selected_agent_id : Option AgentId)
    (agents : List AgentRegistryEntry) : GuardrailResult :=
  let enabled_ids := enabled_agent_ids agents
  let q := lowerStr query
  if guardHasCode q && guardHasPlan q then
    { response := clarification_response
        ["Do you want a project plan, code changes, or both?",
         "If one: should I route this to codegen or projplan?"]
        "Request contains both planning and coding signals."
        (llm_response.routes.take 1)
      changed := true }
  else if llm_response.needs_clarification then
    { response := clarification_response
        llm_response.clarifying_questions
        (optStrOr llm_response.routing_rationale "Clarification required.")
        (llm_response.routes.take 1)
      changed := true }
  else
    match request_selected_agent_id with
    | some sel =>
      if !(enabled_ids.contains sel.value) then
        { response := clarification_response
            ["Selected agent_id \x27" ++ sel.value ++
             "\x27 is not available. Which agent should be used?"]
            "selected_agent_id was provided but is not enabled/available."
          changed := true }
      else
        let subtask := match llm_response.routes with
          | [] => query
          | r :: _ => r.subtask
        { response :=
            { routes := [{ agent_id := sel, confidence := 0.95, subtask := subtask }]
              needs_clarification := false
              clarifying_questions := []
              routing_rationale :=
                some (optStrOr llm_response.routing_rationale "Client selected agent.") }
          changed := true }
    | none =>
      match llm_response.routes with
      | [] =>
        { response := clarification_response
            ["Which agent should handle this request?"]
            (optStrOr llm_response.routing_rationale "No routes returned.")
          changed := true }
      | primary :: _ =>
        if !(enabled_ids.contains primary.agent_id.value) then
          { response := clarification_response
              ["I couldn\x27t match this request to an available agent. Should I route it to codegen or projplan?"]
              ("LLM returned unknown/disabled agent_id: " ++ primary.agent_id.value)
            changed := true }
        else if guardHasCode q &&
            (primary.agent_id.value == AgentId.projplan.value ||
             primary.agent_id.value == AgentId.planner.value) then
          { response :=
              { routes := [{ agent_id := AgentId.codegen
                             confidence := max primary.confidence 0.95
                             subtask := strOr primary.subtask "" }]
                needs_clarification := false
                clarifying_questions := []
                routing_rationale :=
                  some "Guardrail override: coding/debugging signals detected; routing to codegen." }
            changed := true }
        else if guardHasPlan q && (primary.agent_id.value == AgentId.codegen.value) then
          { response :=
              { routes := [{ agent_id := AgentId.planner
                             confidence := max primary.confidence 0.95
                             subtask := strOr primary.subtask "" }]
                needs_clarification := false
                clarifying_questions := []
                routing_rationale :=
                  some "Guardrail override: planning signals detected; routing to planner." }
            changed := true }
        else
          let conf0 := primary.confidence
          let conf1 := if conf0 < 0 then 0 else conf0
          let conf := if conf1 > 1 then 1 else conf1
          { response :=
              { routes := [{ agent_id := primary.agent_id
                             confidence := conf
                             subtask := strOr primary.subtask "" }]
                needs_clarification := false
                clarifying_questions := []
                routing_rationale := llm_response.routing_rationale }
            changed := true }

/-! ## Chat contracts and artifacts (`grand_router_contracts.chat` / `.artifacts`) -/

/-- `MessageRole` enum. -/
inductive MessageRole where
  | user
  | assistant
  | system
deriving DecidableEq, Repr

/-- `RoutingMetaMode` enum. -/
inductive RoutingMetaMode where
  | auto
  | forced
deriving DecidableEq, Repr

/-- `RoutingMeta` model. -/
structure RoutingMeta where
  agent_id : AgentId
  confidence : ℚ
  mode : RoutingMetaMode := .auto
deriving DecidableEq, Repr

/-- `TaskStatus` enum (planner UI state). -/
inductive TaskStatus where
  | todo
  | doing
  | done
deriving DecidableEq, Repr

/-- `ProjectPlanTask` model. -/
structure ProjectPlanTask where
  id : String
  title : String
  description : String
  completed : Bool
  status : TaskStatus
deriving DecidableEq, Repr

/-- `ProjectPlanPhase` model. -/
structure ProjectPlanPhase where
  id : String
  title : String
  icon : String
  tasks : List ProjectPlanTask
deriving DecidableEq, Repr

/-- `ProjectPlan` model. -/
structure ProjectPlan where
  projectName : String
  currentProgress : Nat
  phases : List ProjectPlanPhase
deriving DecidableEq, Repr

/-- The `Artifact` discriminated union from `grand_router_contracts.artifacts`:
the constructor is the `type` discriminator, its argument the payload field. -/
inductive Artifact where
  | patch (patch : String)
  | verification_steps (verification_steps : List String)
  | project_plan (plan : ProjectPlan)
  | risks (risks : List String)
  | next_steps (next_steps : List String)
deriving DecidableEq, Repr

/-- One `chat_history` entry produced by `_augment_context_with_chat_memory`
(timestamps are abstracted to the store's logical clock). -/
structure HistEntry where
  role : MessageRole
  content : String
  created_at : Option Nat
  routing_meta : Option RoutingMeta
deriving DecidableEq, Repr

/-- Values stored in a context dictionary.  Caller-supplied values use the
generic constructors; the enrichment step inserts the structured ones. -/
inductive Val where
  | vstr (s : String)
  | vnat (n : Nat)
  | vlist (xs : List String)
  | vhistory (h : List HistEntry)
  | vplan (p : ProjectPlan)
deriving DecidableEq, Repr

/-- A Python `dict` used as an agent-invocation context: an insertion-ordered
association list with unique keys. -/
abbrev Ctx : Type := List (String × Val)

/-! Association-list primitives shared by contexts and the store document. -/

/-- Dictionary lookup. -/
def alGet {α : Type} (l : List (String × α)) (k : String) : Option α :=
  (l.find? (fun p => p.1 == k)).map (fun p => p.2)

/-- Dictionary key-membership. -/
def alHas {α : Type} (l : List (String × α)) (k : String) : Bool :=
  l.any (fun p => p.1 == k)

/-- Dictionary assignment `d[k] = v` (replaces in place, else appends —
Python dicts keep the original insertion position of an existing key). -/
def alSet {α : Type} (l : List (String × α)) (k : String) (v : α) :
    List (String × α) :=
  if alHas l k then l.map (fun p => if p.1 == k then (k, v) else p)
  else l ++ [(k, v)]

/-- Python `a.update(b)` / `{**a, **b}`: keys of `b` win on conflict. -/
def ctxUpdate (a b : Ctx) : Ctx :=
  (b : List (String × Val)).foldl (fun acc kv => alSet acc kv.1 kv.2) a

/-- Python `d.setdefault(k, v)` restricted to its effect on the dict. -/
def ctxSetdefault (c : Ctx) (k : String) (v : Val) : Ctx :=
  if alHas c k then c else (c : List (String × Val)) ++ [(k, v)]

/-! ## Persistence model (`services/persistence/file_store.py`)

The store is the JSON document (`chats`, `messages_by_chat`) plus a logical
clock standing in for `datetime.now`/`uuid4` (fresh message ids and
timestamps; their concrete values are never observed by the claims). -/

/-- `PendingContinuation` model from `grand_router_contracts.chat`. -/
structure PendingContinuation where
  agent_id : AgentId
  original_query : String
  context_snapshot : Ctx := []
deriving DecidableEq, Repr

/-- `Chat` model. -/
structure Chat where
  chat_id : String
  title : String
  created_at : Nat
  updated_at : Nat
  routed_agent_id : Option String := none
  pending_continuation : Option PendingContinuation := none
deriving DecidableEq, Repr

/-- `Message` model. -/
structure Message where
  message_id : String
  chat_id : String
  role : MessageRole
  content : String
  created_at : Nat
  routing_meta : Option RoutingMeta := none
  artifacts : List Artifact := []
  suggested_replies : Option (List String) := none
deriving DecidableEq, Repr

/-- The persisted store document (`_StoreDoc`) plus the logical clock. -/
structure Store where
  chats : List (String × Chat) := []
  messages_by_chat : List (String × List Message) := []
  tick : Nat := 0
deriving DecidableEq, Repr

/-- `FileChatStore.get_chat` (`KeyError` is modelled as `none`). -/
def storeGetChat (s : Store) (cid : String) : Option Chat := alGet s.chats cid

/-- `FileChatStore.create_chat`: fresh ids come from the caller (the source
draws them from `uuid4`). -/
def storeCreateChat (s : Store) (title : String) (freshId : String) :
    Store × Chat :=
  let chat : Chat :=
    { chat_id := freshId, title := title, created_at := s.tick,
      updated_at := s.tick }
  ({ chats := alSet s.chats freshId chat
     messages_by_chat :=
       if alHas s.messages_by_chat freshId then s.messages_by_chat
       else alSet s.messages_by_chat freshId []
     tick := s.tick + 1 }, chat)

/-- `FileChatStore.create_message`/`append_message`.  At every call site in
`execute` the chat is known to exist; a missing chat (which would raise
`KeyError` in the source) leaves the store unchanged here. -/
def storeCreateMessage (s : Store) (cid : String) (role : MessageRole)
    (content : String) (routing_meta : Option RoutingMeta)
    (artifacts : List Artifact) (suggested_replies : Option (List String)) :
    Store :=
  match alGet s.chats cid with
  | none => s
  | some chat =>
    let msg : Message :=
      { message_id := "msg-" ++ toString s.tick, chat_id := cid, role := role,
        content := content, created_at := s.tick, routing_meta := routing_meta,
        artifacts := artifacts, suggested_replies := suggested_replies }
    let msgs := (alGet s.messages_by_chat cid).getD []
    { chats := alSet s.chats cid { chat with updated_at := s.tick }
      messages_by_chat := alSet s.messages_by_chat cid (msgs ++ [msg])
      tick := s.tick + 1 }

/-- `FileChatStore.set_pending_continuation` (same missing-chat convention). -/
def storeSetPendingContinuation (s : Store) (cid : String)
    (pending : Option PendingContinuation) : Store :=
  match alGet s.chats cid with
  | none => s
  | some chat =>
    { chats := alSet s.chats cid
        { chat with pending_continuation := pending, updated_at := s.tick }
      messages_by_chat := s.messages_by_chat
      tick := s.tick + 1 }

/-- `FileChatStore.set_routed_agent_id` (same missing-chat convention). -/
def storeSetRoutedAgentId (s : Store) (cid : String)
    (agent_id : Option String) : Store :=
  match alGet s.chats cid with
  | none => s
  | some chat =>
    { chats := alSet s.chats cid
        { chat with routed_agent_id := agent_id, updated_at := s.tick }
      messages_by_chat := s.messages_by_chat
      tick := s.tick + 1 }

/-- `FileChatStore.list_messages` (`KeyError` modelled as `none`). -/
def storeListMessages (s : Store) (cid : String) : Option (List Message) :=
  if alHas s.chats cid then some ((alGet s.messages_by_chat cid).getD [])
  else none

/-! ## Hybrid router (`services/routing/hybrid_router.py`) -/

/-- `RouterRouteRequest` from shared contracts. -/
structure RouterRouteRequest where
  query : String
  chat_id : Option String := none
  message_id : Option String := none
  context : Ctx := []
  selected_agent_id : Option AgentId := none
deriving DecidableEq, Repr

/-- Outcome of the external LLM routing source (`route_with_llm`):
either a parsed, schema-valid `RouterRouteResponse`, or a raised
`LLMRouterError` (unparseable or schema-invalid output), or any other
unexpected exception. -/
inductive LLMOutcome where
  | success (r : RouterRouteResponse)
  | routerError
  | unexpectedError
deriving DecidableEq, Repr

/-- `route_hybrid` from `hybrid_router.py`.  The external routing source's
outcome is a parameter (`llm`); `agents_all` models `list_agents()`. -/
def route_hybrid (agents_all : List AgentRegistryEntry)
    (request : RouterRouteRequest) (force_deterministic : Bool)
    (llm : LLMOutcome) : RouterRouteResponse :=
  let agents := agents_all.filter (fun a => a.enabled)
  if force_deterministic then
    match request.selected_agent_id with
    | none =>
      clarification_response
        ["mode=forced requires forced_agent_id. Which agent should be forced (codegen or projplan)?"]
        "Forced mode requested but no agent was provided."
    | some sel =>
      let seeded : RouterRouteResponse :=
        { routes := [{ agent_id := sel, confidence := 1.0, subtask := request.query }]
          needs_clarification := false
          clarifying_questions := []
          routing_rationale := some "Forced route." }
      (apply_guardrails seeded request.query (some sel) agents).response
  else
    match llm with
    | .routerError =>
      clarification_response
        ["I couldn\x27t confidently route this request. Should I send it to codegen or projplan?"]
        "LLM routing failed; clarification required."
    | .unexpectedError =>
      clarification_response
        ["I couldn\x27t route this request. Could you clarify your goal?"]
        "Unexpected routing error; clarification required."
    | .success llm_resp =>
      (apply_guardrails llm_resp request.query request.selected_agent_id agents).response

/-! ## Execute controller (`api/v1/router.py`) -/

/-- `RoutingMode` enum. -/
inductive RoutingMode where
  | auto
  | forced
deriving DecidableEq, Repr

/-- `RouterExecuteRequest` from shared contracts. -/
structure RouterExecuteRequest where
  query : String
  chat_id : Option String := none
  message_id : Option String := none
  context : Ctx := []
  mode : RoutingMode := .auto
  forced_agent_id : Option AgentId := none
  persist : Bool := false
deriving DecidableEq, Repr

/-- `AgentStatus` enum. -/
inductive AgentStatus where
  | ok
  | error
  | needs_clarification
deriving DecidableEq, Repr

/-- `AgentInvokeRequest` from shared contracts. -/
structure AgentInvokeRequest where
  agent_id : AgentId
  task : String
  context : Ctx := []
deriving DecidableEq, Repr

/-- `AgentInvokeResponse` from shared contracts. -/
structure AgentInvokeResponse where
  agent_id : AgentId
  status : AgentStatus
  artifacts : List Artifact := []
  notes : List String := []
  clarifying_questions : List String := []
deriving DecidableEq, Repr

/-- `RouterExecuteResponse` from shared contracts. -/
structure RouterExecuteResponse where
  route_response : RouterRouteResponse
  agent_response : Option AgentInvokeResponse := none
  chat_id : Option String := none
deriving DecidableEq, Repr

/-- A raised `AgentInvokeError` (typed runner error: `code` plus message). -/
structure AgentInvokeError where
  code : String
  message : String
deriving DecidableEq, Repr

/-- An `HTTPException` outcome. -/
structure HttpErr where
  status : Nat
  detail : String
deriving DecidableEq, Repr

/-- The `except AgentInvokeError` translation in `execute`. -/
def httpOfInvokeErr (e : AgentInvokeError) : HttpErr :=
  if e.code = "not_found" then ⟨404, e.message⟩
  else if e.code = "disabled" ∨ e.code = "bad_request" ∨
      e.code = "agent_id_mismatch" then ⟨400, e.message⟩
  else ⟨500, e.message⟩

/-- Externally observable calls `execute` makes: one event per
`route_hybrid` call and per `invoke_agent` call, in order. -/
inductive Event where
  | routeEv (request : RouterRouteRequest) (force_deterministic : Bool)
  | invokeEv (agent_id : AgentId) (task : String) (context : Ctx)
deriving DecidableEq, Repr

/-- Result of one `execute` request: HTTP outcome, the store after the
request (mutations made before an exception persist, as with the file
store), and the route/invoke call trace. -/
structure ExecOutcome where
  result : Except HttpErr RouterExecuteResponse
  store : Store
  events : List Event
deriving Repr

/-- `_ensure_chat_id_for_persist` from `api/v1/router.py`.  `freshId` stands
for the `uuid4` hex drawn by `create_chat`. -/
def ensure_chat_id_for_persist (store : Store) (freshId : String)
    (chat_id : Option String) (query : String) :
    Except HttpErr (String × Store) :=
  let create : Except HttpErr (String × Store) :=
    let title := strTake (strOr query "New chat") 40
    let p := storeCreateChat store title freshId
    .ok (p.2.chat_id, p.1)
  match chat_id with
  | none => create
  | some cid =>
    if cid = "" then create
    else
      match storeGetChat store cid with
      | none => .error ⟨404, "Chat not found: " ++ cid⟩
      | some _ => .ok (cid, store)

/-- The `original` local of the continuation path: the stripped pending
query, or the fixed placeholder when stripping leaves it empty. -/
def combinedOriginal (original_query : String) : String :=
  let original0 := pyStrip original_query
  if original0 = "" then "(missing original_query in pending continuation)"
  else original0

/-- The combined task string built on the continuation path of `execute`. -/
def combined_task_of (original_query new_query : String) : String :=
  let clarification := pyStrip new_query
  pyStrip (pyJoin "\n\n"
    ["ORIGINAL USER REQUEST:\n" ++ combinedOriginal original_query,
     "USER CLARIFICATION ANSWER:\n" ++ clarification]) ++ "\n"

/-- The combined context built on the continuation path of `execute`:
`{**(pending.context_snapshot or {})}` then `update(req.context)` when the
request context is non-empty (shallow merge, request keys win). -/
def combined_context_of (snapshot reqCtx : Ctx) : Ctx :=
  if reqCtx = ([] : Ctx) then snapshot else ctxUpdate snapshot reqCtx

/-- Conversion of a stored message into a `chat_history` entry. -/
def histOfMessage (m : Message) : HistEntry :=
  { role := m.role, content := m.content, created_at := some m.created_at,
    routing_meta := m.routing_meta }

/-- Accumulator for the newest-first artifact scan in
`_augment_context_with_chat_memory`. -/
structure LastArtifacts where
  plan : Option ProjectPlan := none
  risks : Option (List String) := none
  patch : Option String := none
  snippet : Option String := none
  notes : Option (List String) := none
deriving DecidableEq, Repr

/-- One artifact probe of the scan.  The source also probes artifact types
`"snippet"` and `"notes"`, which do not exist in the shared contracts, so
those two accumulator fields can never be filled. -/
def scanArtifact (acc : LastArtifacts) (a : Artifact) : LastArtifacts :=
  match a with
  | .project_plan p => if acc.plan = none then { acc with plan := some p } else acc
  | .risks r => if acc.risks = none then { acc with risks := some r } else acc
  | .patch p => if acc.patch = none then { acc with patch := some p } else acc
  | _ => acc

/-- The early-exit condition of the artifact scan. -/
def lastArtifactsComplete (acc : LastArtifacts) : Bool :=
  acc.plan.isSome && acc.risks.isSome && acc.patch.isSome &&
    (acc.snippet.isSome || acc.notes.isSome)

/-- The `for m in reversed(msgs)` artifact scan (argument already reversed). -/
def scanMessagesRev : List Message → LastArtifacts → LastArtifacts
  | [], acc => acc
  | m :: rest, acc =>
    if m.artifacts = [] then scanMessagesRev rest acc
    else
      let acc2 := m.artifacts.foldl scanArtifact acc
      if lastArtifactsComplete acc2 then acc2 else scanMessagesRev rest acc2

/-- `_augment_context_with_chat_memory` from `execute`. -/
def augment_context_with_chat_memory (store : Store) (chat_id : String)
    (base_context : Ctx) : Ctx :=
  match storeListMessages store chat_id with
  | none => base_context
  | some msgs =>
    let history := (msgs.drop (msgs.length - 20)).map histOfMessage
    let last := scanMessagesRev msgs.reverse {}
    let e0 := ctxSetdefault base_context "chat_history" (.vhistory history)
    let e1 := match last.plan with
      | some p => ctxSetdefault e0 "last_project_plan" (.vplan p)
      | none => e0
    let e2 := match last.risks with
      | some r => ctxSetdefault e1 "last_risks" (.vlist r)
      | none => e1
    let e3 := match last.patch with
      | some p => ctxSetdefault e2 "last_patch" (.vstr p)
      | none => e2
    let e4 := match last.snippet with
      | some p => ctxSetdefault e3 "last_snippet" (.vstr p)
      | none => e3
    match last.notes with
    | some n => ctxSetdefault e4 "last_notes" (.vlist n)
    | none => e4

/-- `f"{confidence:.2f}"` on a rational (content never claim-relevant). -/
def formatConf (c : ℚ) : String :=
  let scaled : Int := Int.floor (c * 100 + 1 / 2)
  let ip := scaled / 100
  let fp := (scaled % 100).toNat
  toString ip ++ "." ++ (if fp < 10 then "0" else "") ++ toString fp

/-- The five canonical reporter section headings probed by `execute`. -/
def reporterHeadings : List String :=
  ["KEY POINTS ACHIEVED", "WHAT CHANGED (BY FILE)", "WHY / ROOT CAUSE",
   "DESIGN NOTES (SOLID / PATTERNS)", "TEST SCENARIOS"]

/-- The fixed 5-section wrap applied to non-planner assistant content that
lacks the reporter headings. -/
def wrappedAssistantContent (raw_content : String) : String :=
  pyJoin "\n"
    ["KEY POINTS ACHIEVED",
     strOr (pyStrip raw_content) "Not applicable.",
     "",
     "WHAT CHANGED (BY FILE)",
     "Not applicable.",
     "",
     "WHY / ROOT CAUSE",
     "Not applicable.",
     "",
     "DESIGN NOTES (SOLID / PATTERNS)",
     "Not applicable.",
     "",
     "TEST SCENARIOS",
     "Not applicable."]

/-- The `RouterRouteRequest` that `execute` builds before calling
`route_hybrid` (chat id: the ensured id if truthy, else the request's). -/
def routeReqOf (req : RouterExecuteRequest) (ensured : Option String) :
    RouterRouteRequest :=
  { query := req.query, chat_id := optStrOrOpt ensured req.chat_id,
    message_id := req.message_id, context := req.context,
    selected_agent_id :=
      if req.mode = RoutingMode.forced then req.forced_agent_id else none }

/-- The non-continuation tail of `execute` (from line 202 of
`api/v1/router.py` onward): routing, the route-level clarification path,
agent invocation, and the persistence block. -/
def executeRouted (routeFn : RouterRouteRequest → Bool → RouterRouteResponse)
    (invokeFn : AgentId → AgentInvokeRequest →
      Except AgentInvokeError AgentInvokeResponse)
    (freshChatId : String) (s1 : Store) (req : RouterExecuteRequest)
    (ensured : Option String) : ExecOutcome :=
  let route_req := routeReqOf req ensured
  let fd := req.mode = RoutingMode.forced
  let route_response := routeFn route_req (decide fd)
  let ev0 := [Event.routeEv route_req (decide fd)]
  if route_response.needs_clarification then
    match ensured with
    | some cid =>
      if req.persist ∧ cid ≠ "" then
        let s2 := storeCreateMessage s1 cid .user req.query none [] none
        let clarifying_text :=
          strOr (pyJoin "\n" route_response.clarifying_questions)
            "Please clarify your request."
        let routing_meta : Option RoutingMeta :=
          match route_response.routes with
          | [] => none
          | p :: _ => some ⟨p.agent_id, p.confidence, .auto⟩
        let s3 := storeCreateMessage s2 cid .assistant clarifying_text
          routing_meta [] (some route_response.clarifying_questions)
        let s4 := match route_response.routes with
          | [] => s3
          | p :: _ => storeSetRoutedAgentId s3 cid (some p.agent_id.value)
        let s5 := match route_response.routes with
          | [] => s4
          | p :: _ => storeSetPendingContinuation s4 cid
              (some ⟨p.agent_id, req.query, req.context⟩)
        { result := .ok ⟨route_response, none, ensured⟩, store := s5,
          events := ev0 }
      else
        { result := .ok ⟨route_response, none, ensured⟩, store := s1,
          events := ev0 }
    | none =>
      { result := .ok ⟨route_response, none, ensured⟩, store := s1,
        events := ev0 }
  else
    let invokeStep : Except (HttpErr × List Event)
        (Option AgentInvokeResponse × List Event) :=
      match route_response.routes with
      | [] => .ok (none, ev0)
      | p :: _ =>
        let ctx0 := req.context
        let chat_id_for_mem := optStrOrOpt ensured req.chat_id
        let ctx := match chat_id_for_mem with
          | some c =>
            if c = "" then ctx0
            else augment_context_with_chat_memory s1 c ctx0
          | none => ctx0
        let ev1 := ev0 ++ [Event.invokeEv p.agent_id req.query ctx]
        match invokeFn p.agent_id ⟨p.agent_id, req.query, ctx⟩ with
        | .error e => .error (httpOfInvokeErr e, ev1)
        | .ok r => .ok (some r, ev1)
    match invokeStep with
    | .error (e, ev) => { result := .error e, store := s1, events := ev }
    | .ok (agent_response, ev) =>
      if req.persist then
        let ensure2 : Except HttpErr (String × Store) :=
          if optStrTruthy ensured then .ok (ensured.getD "", s1)
          else ensure_chat_id_for_persist s1 freshChatId req.chat_id req.query
        match ensure2 with
        | .error e => { result := .error e, store := s1, events := ev }
        | .ok (cid, s1b) =>
          let s2 := storeCreateMessage s1b cid .user req.query none [] none
          match agent_response, route_response.routes with
          | some ar, p :: _ =>
            if ar.status = AgentStatus.needs_clarification then
              let s3 := storeSetRoutedAgentId s2 cid (some p.agent_id.value)
              let clarifying_text :=
                strOr (pyJoin "\n" ar.clarifying_questions)
                  "Please clarify your request."
              let s4 := storeCreateMessage s3 cid .assistant clarifying_text
                (some ⟨p.agent_id, p.confidence, .auto⟩) ar.artifacts
                (some ar.clarifying_questions)
              let s5 := storeSetPendingContinuation s4 cid
                (some ⟨p.agent_id, req.query, req.context⟩)
              let agent_route_response : RouterRouteResponse :=
                { routes := route_response.routes
                  needs_clarification := true
                  clarifying_questions := ar.clarifying_questions
                  routing_rationale := some "Agent requires clarification." }
              { result := .ok ⟨agent_route_response, some ar, some cid⟩,
                store := s5, events := ev }
            else
              let s3 := storeSetRoutedAgentId s2 cid (some p.agent_id.value)
              let routing_meta : RoutingMeta :=
                ⟨p.agent_id, p.confidence,
                 if req.mode = RoutingMode.forced then .forced else .auto⟩
              let summary := "Routed to " ++ p.agent_id.value ++
                " (confidence " ++ formatConf p.confidence ++ ")."
              let raw_content :=
                if ar.notes = [] then summary else pyJoin "\n" ar.notes
              let assistant_content :=
                if p.agent_id.value == "planner" then
                  strOr (pyStrip raw_content) "Generated a project plan."
                else if reporterHeadings.any
                    (fun h => strContains raw_content h) then raw_content
                else wrappedAssistantContent raw_content
              let s4 := storeCreateMessage s3 cid .assistant assistant_content
                (some routing_meta) ar.artifacts none
              { result := .ok ⟨route_response, some ar, ensured⟩,
                store := s4, events := ev }
          | _, _ =>
            { result := .ok ⟨route_response, agent_response, ensured⟩,
              store := s2, events := ev }
      else
        { result := .ok ⟨route_response, agent_response, ensured⟩,
          store := s1, events := ev }

/-- The continuation path of `execute` (lines 97-200 of `api/v1/router.py`);
`none` means "no pending continuation, fall through to routing". -/
def executeContinuation
    (invokeFn : AgentId → AgentInvokeRequest →
      Except AgentInvokeError AgentInvokeResponse)
    (s1 : Store) (req : RouterExecuteRequest) (ensured : Option String) :
    Option ExecOutcome :=
  match ensured with
  | none => none
  | some cid =>
    if req.persist ∧ cid ≠ "" then
      match storeGetChat s1 cid with
      | none => some
          { result := .error ⟨404, "Chat not found: " ++ cid⟩,
            store := s1, events := [] }
      | some chat =>
        match chat.pending_continuation with
        | none => none
        | some pending =>
          let task := combined_task_of pending.original_query req.query
          let cctx := combined_context_of pending.context_snapshot req.context
          let ev := [Event.invokeEv pending.agent_id task cctx]
          match invokeFn pending.agent_id ⟨pending.agent_id, task, cctx⟩ with
          | .error e => some
              { result := .error (httpOfInvokeErr e),
                store := s1, events := ev }
          | .ok agent_response =>
            let s2 := storeCreateMessage s1 cid .user req.query none [] none
            let routing_meta : RoutingMeta := ⟨pending.agent_id, 1, .forced⟩
            let assistant_content :=
              if agent_response.notes = [] then "(no notes)"
              else pyJoin "\n" agent_response.notes
            let s3 := storeCreateMessage s2 cid .assistant assistant_content
              (some routing_meta) agent_response.artifacts none
            let s4 := storeSetPendingContinuation s3 cid none
            let rr : RouterRouteResponse :=
              { routes := [⟨pending.agent_id, 1, "continuation"⟩]
                needs_clarification := false
                clarifying_questions := []
                routing_rationale :=
                  some "Auto-continued from pending clarification." }
            let resp : RouterExecuteResponse :=
              { route_response := rr, agent_response := some agent_response,
                chat_id := ensured }
            some { result := .ok resp, store := s4, events := ev }
    else none

/-- `execute` from `api/v1/router.py`.  `routeFn` models `route_hybrid`
(whose LLM call is external), `invokeFn` models `invoke_agent`, and
`freshChatId` is the uuid `create_chat` would draw. -/
def execute (routeFn : RouterRouteRequest → Bool → RouterRouteResponse)
    (invokeFn : AgentId → AgentInvokeRequest →
      Except AgentInvokeError AgentInvokeResponse)
    (freshChatId : String) (store0 : Store) (req : RouterExecuteRequest) :
    ExecOutcome :=
  let step1 : Except HttpErr (Option String × Store) :=
    if req.persist then
      match ensure_chat_id_for_persist store0 freshChatId req.chat_id req.query with
      | .error e => .error e
      | .ok (cid, s) => .ok (some cid, s)
    else .ok (none, store0)
  match step1 with
  | .error e => { result := .error e, store := store0, events := [] }
  | .ok (ensured, s1) =>
    match executeContinuation invokeFn s1 req ensured with
    | some out => out
    | none => executeRouted routeFn invokeFn freshChatId s1 req ensured

/-! ## Codegen agent (`services/agents/codegen/agent.py`)

The LLM-backed pipeline stages (`run_intake`, `run_plan`, ...) call the
external text-generation capability, so they are parameters of the model
(`CodegenStages`); the orchestration and its deterministic guardrails are
translated from the source. -/

/-- `ExecutionProfile`. -/
structure ExecutionProfile where
  language : String := ""
  framework : String := ""
deriving DecidableEq, Repr

/-- `IntakeResult` from `pipeline/intake.py`. -/
structure IntakeResult where
  needs_clarification : Bool
  questions : List String
  assumptions : List String
  profile : ExecutionProfile
  goal : String
  verification_steps : List String
deriving DecidableEq, Repr

/-- `PlanResult` from `pipeline/planner.py`. -/
structure PlanResult where
  plan : List String
  files_to_touch : List String
  approach : String
  verification_steps : List String
  risks : List String
deriving DecidableEq, Repr

/-- `PatchResult` from `pipeline/implementer.py`. -/
structure PatchResult where
  patch : String
deriving DecidableEq, Repr

/-- `ReviewResult` from `pipeline/reviewer.py`. -/
structure ReviewResult where
  findings : List String := []
  edge_cases : List String := []
  improvements : List String := []
  must_fix : List String := []
deriving DecidableEq, Repr

/-- `SolidCriticResult` from `pipeline/solid_critic.py`. -/
structure SolidCriticResult where
  solid : List String := []
  pattern_justification : List String := []
  issues : List String := []
  recommended_changes : List String := []
deriving DecidableEq, Repr

/-- `ReviseResult` from `pipeline/reviser.py`. -/
structure ReviseResult where
  patch : String
deriving DecidableEq, Repr

/-- `DebugFixResult` from `pipeline/debug_fix.py` (its `debug` analysis field
is not consumed by the orchestrator and is omitted). -/
structure DebugFixResult where
  patch : String
  review : ReviewResult
  solid : SolidCriticResult
deriving DecidableEq, Repr

/-- `ReportResult` from `pipeline/reporter.py`. -/
structure ReportResult where
  notes : List String
deriving DecidableEq, Repr

/-- `ScanResult` from `pipeline/scanner.py`. -/
structure ScanResult where
  file_tree : List String := []
  grep_hits : List String := []
deriving DecidableEq, Repr

/-- One `context.files` entry (`{"path": ..., "content": ...}`). -/
structure FileEntry where
  path : String
  content : String
deriving DecidableEq, Repr

/-- The context keys the codegen orchestrator itself reads.  The whole
context is also forwarded to the (opaque) pipeline stages.  In the source,
the truthy `project_scan` request key is overwritten by the scan result
dict; here the result lives in the separate `project_scan_data` field. -/
structure CodegenCtx where
  files : List FileEntry := []
  error_logs : String := ""
  goal : String := ""
  project_scan : Bool := false
  project_root : Option String := none
  project_scan_include : List String := []
  project_scan_regexes : List String := []
  debug_fix : Bool := false
  project_scan_data : Option ScanResult := none
deriving DecidableEq, Repr

/-- `_dedupe_preserve_order` helper loop. -/
def dedupePreserveAux : List String → List String → List String
  | [], _ => []
  | it :: rest, seen =>
    let s := pyStrip it
    if s = "" then dedupePreserveAux rest seen
    else if seen.contains s then dedupePreserveAux rest seen
    else s :: dedupePreserveAux rest (s :: seen)

/-- `_dedupe_preserve_order` from `agent.py`. -/
def dedupe_preserve_order (items : List String) : List String :=
  dedupePreserveAux items []

/-- Replace one character by another everywhere (`str.replace` for
single characters). -/
def replaceChar (s : String) (a b : Char) : String :=
  ⟨s.data.map (fun c => if c == a then b else c)⟩

/-- The final path segment (`p.rsplit("/", 1)[-1]`). -/
def lastSlashSegment (s : String) : String :=
  match (splitNl (replaceChar s '/' '\n')).getLast? with
  | some seg => seg
  | none => s

/-- `_is_test_path` from `agent.py`. -/
def is_test_path (path : String) : Bool :=
  let p := lowerStr (replaceChar path '\\' '/')
  let name := lastSlashSegment p
  strContains ("/" ++ p ++ "/") "/tests/" ||
  strContains ("/" ++ p ++ "/") "/test/" ||
  strContains ("/" ++ p ++ "/") "/__tests__/" ||
  (strStartsWith name "test_" && strEndsWith name ".py") ||
  strEndsWith name "_test.py" ||
  strContains name ".spec." || strContains name ".test."

/-- Consume a literal from the front of a character list. -/
def dropLit (lit : String) (l : List Char) : Option (List Char) :=
  if List.isPrefixOf lit.data l then some (l.drop lit.data.length) else none

/-- Consume `\s+` (at least one whitespace character, then all following). -/
def takeWs (l : List Char) : Option (List Char) :=
  match l with
  | c :: t =>
    if c.isWhitespace then some (t.dropWhile Char.isWhitespace) else none
  | [] => none

/-- Consume `\S+` (a maximal non-empty run of non-whitespace characters). -/
def takeNonWs (l : List Char) : Option (List Char × List Char) :=
  let p := l.span (fun c => !c.isWhitespace)
  if p.1.isEmpty then none else some p

/-- Full-line match of `^diff\s+--git\s+a/(\S+)\s+b/(\S+)$`
(as used by `_patch_deletes_or_moves_tests`). -/
def parseDiffGitLine (line : String) : Option (String × String) := do
  let l1 ← dropLit "diff" line.data
  let l2 ← takeWs l1
  let l3 ← dropLit "--git" l2
  let l4 ← takeWs l3
  let l5 ← dropLit "a/" l4
  let (pa, l6) ← takeNonWs l5
  let l7 ← takeWs l6
  let l8 ← dropLit "b/" l7
  let (pb, l9) ← takeNonWs l8
  if l9 = [] then some (⟨pa⟩, ⟨pb⟩) else none

/-- Full-line match of `^diff\s+--git\s+a/(\S+)\s+b/(\S+)\s*$`
(trailing whitespace allowed, as used by `_extract_diff_paths`). -/
def parseDiffGitLineLoose (line : String) : Option (String × String) := do
  let l1 ← dropLit "diff" line.data
  let l2 ← takeWs l1
  let l3 ← dropLit "--git" l2
  let l4 ← takeWs l3
  let l5 ← dropLit "a/" l4
  let (pa, l6) ← takeNonWs l5
  let l7 ← takeWs l6
  let l8 ← dropLit "b/" l7
  let (pb, l9) ← takeNonWs l8
  if l9.dropWhile Char.isWhitespace = [] then some (⟨pa⟩, ⟨pb⟩) else none

/-- `_extract_diff_paths` from `agent.py` (the `re.MULTILINE` `finditer`
matches exactly the newline-delimited lines of the patch). -/
def extract_diff_paths (patch : String) : List String :=
  let raw := ((splitNl patch).map (fun line =>
    match parseDiffGitLineLoose line with
    | some (a, b) => [a, b].filter (fun p => p ≠ "" ∧ p ≠ "/dev/null")
    | none => [])).flatten
  dedupe_preserve_order raw

/-- The line loop of `_patch_deletes_or_moves_tests`. -/
def patchDeletesAux : List String → Option String → Bool
  | [], _ => false
  | line :: rest, curr_a =>
    if strStartsWith line "diff --git a/" then
      match parseDiffGitLine line with
      | some (a, _) => patchDeletesAux rest (some a)
      | none => patchDeletesAux rest none
    else if strStartsWith line "deleted file mode" then
      (match curr_a with
       | some a => is_test_path a
       | none => false) || patchDeletesAux rest curr_a
    else if strStartsWith line "rename from " then
      is_test_path (pyStrip ⟨line.data.drop 12⟩) || patchDeletesAux rest curr_a
    else if strStartsWith line "rename to " then
      is_test_path (pyStrip ⟨line.data.drop 10⟩) || patchDeletesAux rest curr_a
    else patchDeletesAux rest curr_a

/-- `_patch_deletes_or_moves_tests` from `agent.py`. -/
def patch_deletes_or_moves_tests (patch : String) : Bool :=
  patchDeletesAux (pySplitlines patch) none

/-- `_user_explicitly_requested_test_deletion` from `agent.py`. -/
def user_explicitly_requested_test_deletion (task : String) : Bool :=
  let t := lowerStr task
  strContains t "test" &&
  (["delete", "remove", "rename", "move"].any (fun k => strContains t k)) &&
  (["test", "tests"].any (fun k => strContains t k))

/-- `(^|\n)diff\s+--git\b` matched at one candidate position. -/
def diffGitMarkerAt (l : List Char) : Bool :=
  match dropLit "diff" l with
  | none => false
  | some l1 =>
    match takeWs l1 with
    | none => false
    | some l2 =>
      match dropLit "--git" l2 with
      | none => false
      | some l3 =>
        match l3 with
        | [] => true
        | c :: _ => !(isWordChar c)

/-- `(^|\n)\+\+\+\b` matched at one candidate position: `\b` after the
(non-word) `+` requires the next character to be a word character. -/
def plusPlusPlusMarkerAt (l : List Char) : Bool :=
  match l with
  | '+' :: '+' :: '+' :: c :: _ => isWordChar c
  | _ => false

/-- `(^|\n)@@\b` matched at one candidate position (same `\b` reading). -/
def atAtMarkerAt (l : List Char) : Bool :=
  match l with
  | '@' :: '@' :: c :: _ => isWordChar c
  | _ => false

/-- `re.search` for a pattern anchored by `(^|\n)`: try the string start and
every position following a newline character. -/
def searchAtLineStarts (p : List Char → Bool) (l : List Char) : Bool :=
  p l || go l
where
  go : List Char → Bool
    | [] => false
    | '\n' :: t => p t || go t
    | _ :: t => go t

/-- The three snippet-mode diff-marker searches from `CodegenAgent.invoke`
(lines 598-602 of `agent.py`), combined. -/
def snippet_has_diff_markers (code : String) : Bool :=
  searchAtLineStarts diffGitMarkerAt code.data ||
  searchAtLineStarts plusPlusPlusMarkerAt code.data ||
  searchAtLineStarts atAtMarkerAt code.data

/-- `SnippetFile` from `steps/snippet.py`. -/
structure SnippetFile where
  path : String
  content : String
deriving DecidableEq, Repr

/-- `SnippetResult` of `parse_snippet` from `steps/snippet.py`. -/
structure SnippetParsed where
  files : List SnippetFile
  is_chat_only : Bool
  text : String
deriving DecidableEq, Repr

/-- Full-line match of the `// File:` marker regex
`^//\s*File:\s+(.+?)\s*$`; returns `group(1).strip()` on a match. -/
def parseFileMarkerLine (line : String) : Option String :=
  match dropLit "//" line.data with
  | none => none
  | some l1 =>
    let l2 := l1.dropWhile Char.isWhitespace
    match dropLit "File:" l2 with
    | none => none
    | some rest =>
      match rest with
      | c :: _ :: _ =>
        if c.isWhitespace then some ⟨stripRight (stripLeft rest)⟩ else none
      | _ => none

/-- Group the lines of snippet output into marker-headed segments. -/
def snippetSegments :
    List String → Option (String × List String) → List (String × List String)
  | [], none => []
  | [], some (p, acc) => [(p, acc.reverse)]
  | line :: rest, cur =>
    match parseFileMarkerLine line with
    | some path =>
      match cur with
      | none => snippetSegments rest (some (path, []))
      | some (p, acc) => (p, acc.reverse) :: snippetSegments rest (some (path, []))
    | none =>
      match cur with
      | none => snippetSegments rest none
      | some (p, acc) => snippetSegments rest (some (p, line :: acc))

/-- `parse_snippet` from `steps/snippet.py`, reconstructed line-wise: each
file block runs from its marker line to the next marker (leading blank
lines removed, newline-terminated when non-empty). -/
def parse_snippet (output : String) : SnippetParsed :=
  let s : String := pyStrip ⟨replaceCRLF output.data⟩
  if s = "" then ⟨[], true, ""⟩
  else
    let segs := snippetSegments (splitNl s) none
    if segs = [] then ⟨[], true, s⟩
    else
      let files := segs.foldr (fun pc acc =>
        let content0 := pc.2.dropWhile (fun l => l = "")
        let content := if content0 = [] then "" else pyJoin "\n" content0 ++ "\n"
        if pc.1 ≠ "" then ⟨pc.1, content⟩ :: acc else acc) []
      ⟨files, false, s⟩

/-- The `strong_tokens` list of the inline-code promotion heuristic. -/
def strong_tokens : List String :=
  ["def ", "class ", "return ", "import ", "from ", "try:", "except",
   "raise ", "async def ", "await ", "public class", "function ", "=>",
   "\x7b"]

/-- The inline-code detection heuristics (`agent.py` lines 485-527). -/
def looks_like_inline_code (inline_task : String) : Bool :=
  let task_lines := pySplitlines inline_task
  let token_hits :=
    (strong_tokens.filter (fun tok => strContains inline_task tok)).length
  let multiline_like_code := decide (task_lines.length ≥ 3) && decide (token_hits ≥ 1)
  let oneline_like_python_module :=
    decide (task_lines.length ≤ 2) && strContains inline_task "def " &&
      (strContains inline_task "import " || strContains inline_task "from " ||
       strContains inline_task "class ")
  let oneline_like_code := decide (task_lines.length ≤ 2) &&
    (oneline_like_python_module || decide (token_hits ≥ 2) ||
     (strContains inline_task ";" && decide (token_hits ≥ 1)))
  multiline_like_code || oneline_like_code

/-- The default virtual-file name for promoted inline code. -/
def inline_default_name (lang : String) : String :=
  if lang = "python" then "inline_snippet.py"
  else if lang = "java" then "inline_snippet.java"
  else if lang = "javascript" then "inline_snippet.js"
  else if lang = "typescript" then "inline_snippet.ts"
  else if lang = "csharp" then "inline_snippet.cs"
  else "inline_snippet.txt"

/-- `looks_like_question` over the lowered, stripped task. -/
def looks_like_question (task_for_intent : String) : Bool :=
  strContains task_for_intent "?" ||
  strStartsWith task_for_intent "what " ||
  strStartsWith task_for_intent "why " ||
  strStartsWith task_for_intent "how " ||
  strStartsWith task_for_intent "can you " ||
  strContains task_for_intent "explain"

/-- `looks_like_generation_request` over the lowered, stripped task. -/
def looks_like_generation_request (task_for_intent : String) : Bool :=
  ["generate", "scaffold", "create ", "write ", "implement", "add ",
   "remove ", "refactor", "patch", "diff"].any
    (fun k => strContains task_for_intent k)

/-- `looks_like_spring` over the lowered task. -/
def looks_like_spring (task_lc : String) : Bool :=
  ["spring boot", "springboot", "@restcontroller", "@controller",
   "spring data"].any (fun k => strContains task_lc k)

/-- The default include globs of the optional project scan. -/
def codegenDefaultGlobs : List String :=
  ["**/*.py", "**/*.ts", "**/*.tsx", "**/*.js", "**/*.json", "**/*.toml",
   "**/*.yml", "**/*.yaml", "**/pyproject.toml", "**/package.json",
   "**/vite.config.*"]

/-- The default grep regexes of the optional project scan (the source's raw
strings contain doubled backslashes verbatim). -/
def codegenDefaultRegexes : List String :=
  ["Traceback\\\\b", "TODO\\\\b", "FIXME\\\\b", "raise\\\\s+", "logger\\\\.",
   "console\\\\."]

/-- The pipeline stages (external text-generation calls) plus three
deterministic helpers abstracted as parameters because no claim depends on
them: `_clean_verification_steps_final` (verification-step cleaning),
`_report_mentions_only_touched_files` (report/path consistency), and the two
Spring-component regex extractions of `invoke` (`spring_required_markers`
returns `sorted(class_tokens) + sorted(file_tokens)`). -/
structure CodegenStages where
  run_intake : String → CodegenCtx → IntakeResult
  scan_project : String → List String → List String → ScanResult
  run_plan : String → CodegenCtx → ExecutionProfile → List String → PlanResult
  run_snippet : String → CodegenCtx → ExecutionProfile → List String →
    List String → String
  run_patch : String → CodegenCtx → ExecutionProfile → List String →
    List String → List String → PatchResult
  run_review : String → CodegenCtx → ExecutionProfile → String → ReviewResult
  run_solid_critic : String → CodegenCtx → ExecutionProfile → String →
    List String → SolidCriticResult
  run_revise : String → CodegenCtx → ExecutionProfile → String →
    ReviewResult → SolidCriticResult → ReviseResult
  run_debug_fix : String → CodegenCtx → ExecutionProfile → List String →
    DebugFixResult
  run_report : String → CodegenCtx → ExecutionProfile → PlanResult →
    ReviewResult → SolidCriticResult → String → List String → ReportResult
  clean_verification_steps_final : List String → ExecutionProfile → String →
    CodegenCtx → List String
  report_mentions_only_touched_files : List String → List String → Bool
  spring_required_markers : String → List String

/-- The optional project-scan step (`agent.py` lines 412-469): context is
enriched with capped scan results when requested and debugging-like. -/
def codegenCtxAfterScan (st : CodegenStages) (task : String)
    (ctx : CodegenCtx) (intake : IntakeResult) : CodegenCtx :=
  let error_logs := pyStrip ctx.error_logs
  let looks_like_debug := error_logs ≠ "" ||
    (["debug", "traceback", "stack trace", "exception"].any
      (fun k => strContains (lowerStr task) k)) ||
    intake.goal = "bugfix"
  if ctx.project_scan && looks_like_debug then
    let root_dir := strOr (ctx.project_root.getD "") "."
    let include_globs :=
      if ctx.project_scan_include = [] then codegenDefaultGlobs
      else ctx.project_scan_include
    let regexes :=
      if ctx.project_scan_regexes = [] then codegenDefaultRegexes
      else ctx.project_scan_regexes
    let scan := st.scan_project root_dir include_globs regexes
    let sd : ScanResult :=
      { file_tree := scan.file_tree.take 250
        grep_hits := scan.grep_hits.take 80 }
    { ctx with project_scan_data := some sd }
  else ctx

/-- Outcome of the mode decision plus inline-code promotion
(`agent.py` lines 471-546). -/
structure ModeDecision where
  ctx : CodegenCtx
  snippet_mode : Bool
deriving DecidableEq, Repr

/-- Mode decision: snippet mode when no `context.files`, unless the pasted
task text looks like inline code, which is promoted to a virtual file. -/
def codegenModeDecision (task : String) (ctx : CodegenCtx)
    (intake : IntakeResult) : ModeDecision :=
  let snippet_mode := ctx.files.isEmpty
  if snippet_mode && pyStrip task ≠ "" && looks_like_inline_code task then
    let lang := lowerStr intake.profile.language
    let default_name := inline_default_name lang
    ⟨{ ctx with files := [⟨default_name, task⟩] }, false⟩
  else ⟨ctx, snippet_mode⟩

/-- Final assembly and the two patch-mode guardrail checks of
`CodegenAgent.invoke` (lines 861-938): report, the test-protection
guardrail, the report/path consistency check, and artifact emission. -/
def codegenFinish (st : CodegenStages) (task : String) (context : CodegenCtx)
    (intake : IntakeResult) (plan : PlanResult) (review : Option ReviewResult)
    (solid : Option SolidCriticResult) (final_patch : String)
    (verification_steps : List String) (snippet_mode : Bool) :
    AgentInvokeResponse :=
  let reviewR := review.getD {}
  let solidR := solid.getD {}
  let report := st.run_report task context intake.profile plan reviewR solidR
    final_patch verification_steps
  let notes0 := if report.notes = [] then ["- Generated a patch."] else report.notes
  if !snippet_mode && patch_deletes_or_moves_tests final_patch &&
      !(user_explicitly_requested_test_deletion task) then
    { agent_id := .codegen, status := .needs_clarification, artifacts := [],
      notes :=
        ["- Proposed patch deletes/renames/moves test files, which is not allowed by default.",
         "- Please explicitly confirm that you want tests deleted/renamed/moved, or ask to keep/update them."],
      clarifying_questions :=
        ["Do you want to delete/rename/move the existing test files? If yes, list the exact paths."] }
  else
    let notes := if !snippet_mode then
        let touched := extract_diff_paths final_patch
        if st.report_mentions_only_touched_files notes0 touched then notes0
        else ["- Generated a patch.",
              "- Note: Report omitted due to file/path inconsistency with the produced diff."]
      else notes0
    { agent_id := .codegen, status := .ok,
      artifacts := [.patch final_patch, .verification_steps verification_steps],
      notes := notes, clarifying_questions := [] }

/-- The snippet-mode generation branch of `CodegenAgent.invoke`
(lines 580-743). -/
def codegenSnippetBranch (st : CodegenStages) (task : String)
    (context : CodegenCtx) (intake : IntakeResult) (plan : PlanResult) :
    AgentInvokeResponse :=
  let code := st.run_snippet task context intake.profile plan.plan
    intake.assumptions
  let parsed := parse_snippet code
  if snippet_has_diff_markers code then
    { agent_id := .codegen, status := .needs_clarification, artifacts := [],
      notes :=
        ["- Snippet output contained diff markers. Please re-run with plain file snippets only."],
      clarifying_questions :=
        ["Confirm the requested files/paths so I can output only full `// File:` blocks (no diffs)."] }
  else
    let requested_files := dedupe_preserve_order
      ((plan.files_to_touch.map pyStrip).filter (fun p => p ≠ ""))
    let task_for_intent := lowerStr (pyStrip task)
    if parsed.is_chat_only && looks_like_question task_for_intent &&
        !(looks_like_generation_request task_for_intent) then
      { agent_id := .codegen, status := .ok, artifacts := [],
        notes := [strOr parsed.text code], clarifying_questions := [] }
    else
      let file_blocks := parsed.files.length
      let min_blocks :=
        if requested_files.length ≥ 2 then max requested_files.length 2
        else requested_files.length
      if file_blocks < min_blocks then
        { agent_id := .codegen, status := .needs_clarification, artifacts := [],
          notes :=
            ["- Snippet output is incomplete for expected domain + usage files (expected >= " ++
             toString min_blocks ++ " `// File:` blocks, got " ++
             toString file_blocks ++ ")."],
          clarifying_questions :=
            ["Confirm the exact file list/paths you want generated so I can output full `// File:` blocks for each."] }
      else
        let required_markers :=
          if looks_like_spring (lowerStr task) then st.spring_required_markers task
          else []
        let missing := required_markers.filter (fun m => !(strContains code m))
        if required_markers ≠ [] ∧ missing ≠ [] then
          { agent_id := .codegen, status := .needs_clarification,
            artifacts := [],
            notes :=
              ["- Snippet output is missing explicitly requested Spring Boot components:"] ++
              (missing.take 8).map (fun m => "  - " ++ m),
            clarifying_questions :=
              ["Confirm whether these components should be generated (and their exact filenames/paths)."] }
        else
          let final_patch := code
          let verification_steps := st.clean_verification_steps_final
            (dedupe_preserve_order
              (plan.verification_steps ++ intake.verification_steps ++
               ["Compile/build the generated code",
                "Run the provided entrypoint/example"]))
            intake.profile task context
          codegenFinish st task context intake plan none none final_patch
            verification_steps true

/-- The non-snippet generation chain: the debug-fix path or the
implement/review/critique/revise path; returns the final patch with the
review and critique threaded to the reporter. -/
def codegenNonSnippetFinal (st : CodegenStages) (task : String)
    (context : CodegenCtx) (intake : IntakeResult) (plan : PlanResult)
    (error_logs : String) : String × ReviewResult × SolidCriticResult :=
  if context.debug_fix && error_logs ≠ "" then
    let dbg := st.run_debug_fix task context intake.profile plan.plan
    (dbg.patch, dbg.review, dbg.solid)
  else
    let patch1 := st.run_patch task context intake.profile plan.plan
      intake.assumptions plan.files_to_touch
    let review := st.run_review task context intake.profile patch1.patch
    let solid := st.run_solid_critic task context intake.profile patch1.patch
      plan.plan
    let revised := st.run_revise task context intake.profile patch1.patch
      review solid
    (revised.patch, review, solid)

/-- The patch-mode generation branch of `CodegenAgent.invoke`
(lines 744-859). -/
def codegenPatchBranch (st : CodegenStages) (task : String)
    (context : CodegenCtx) (intake : IntakeResult) (plan : PlanResult)
    (error_logs : String) : AgentInvokeResponse :=
  let r := codegenNonSnippetFinal st task context intake plan error_logs
  let final_patch := r.1
  if pyStrip final_patch = "" then
    { agent_id := .codegen, status := .needs_clarification, artifacts := [],
      notes :=
        ["- Unable to produce a valid unified diff patch from the provided inputs."],
      clarifying_questions :=
        ["Please provide the relevant file(s) in context.files (path + content).",
         "If this is a bug, include the full error log / stack trace in context.error_logs."] }
  else
    let verification_steps := st.clean_verification_steps_final
      (dedupe_preserve_order
        (plan.verification_steps ++ intake.verification_steps ++
         ["Run unit tests", "Run linters", "Smoke test the app"]))
      intake.profile task context
    codegenFinish st task context intake plan (some r.2.1) (some r.2.2)
      final_patch verification_steps false

/-- `CodegenAgent.invoke` from `agent.py`, orchestrating the stage
parameters exactly as the source does. -/
def codegenInvoke (st : CodegenStages) (task : String)
    (context0 : CodegenCtx) : AgentInvokeResponse :=
  let intake := st.run_intake task context0
  if intake.needs_clarification then
    { agent_id := .codegen, status := .needs_clarification, artifacts := [],
      notes := ["- Missing critical information to generate a safe patch."],
      clarifying_questions := intake.questions.take 3 }
  else
    let error_logs := pyStrip context0.error_logs
    let ctx1 := codegenCtxAfterScan st task context0 intake
    let md := codegenModeDecision task ctx1 intake
    if (intake.goal = "bugfix" ∨ intake.goal = "refactor") ∧
        md.snippet_mode = true ∧ error_logs = "" then
      { agent_id := .codegen, status := .needs_clarification, artifacts := [],
        notes :=
          ["- Please provide relevant files in context.files for bugfix/refactor work."],
        clarifying_questions :=
          ["Which file(s) should be modified? Provide them as context.files (path + content).",
           "If available, include the full error log / stack trace in context.error_logs."] }
    else
      let plan := st.run_plan task md.ctx intake.profile intake.assumptions
      if md.snippet_mode then
        codegenSnippetBranch st task md.ctx intake plan
      else
        codegenPatchBranch st task md.ctx intake plan error_logs

/-- The snippet-mode flag a codegen run computes (used to state claims about
non-snippet runs). -/
def codegenSnippetModeOf (st : CodegenStages) (task : String)
    (context0 : CodegenCtx) : Bool :=
  (codegenModeDecision task (codegenCtxAfterScan st task context0
    (st.run_intake task context0)) (st.run_intake task context0)).snippet_mode

/-- The final patch a non-snippet codegen run produces before the
final-assembly guardrails. -/
def codegenFinalPatch (st : CodegenStages) (task : String)
    (context0 : CodegenCtx) : String :=
  let intake := st.run_intake task context0
  let ctx1 := codegenCtxAfterScan st task context0 intake
  let md := codegenModeDecision task ctx1 intake
  let plan := st.run_plan task md.ctx intake.profile intake.assumptions
  (codegenNonSnippetFinal st task md.ctx intake plan
    (pyStrip context0.error_logs)).1

/-! ## Branch equations for `apply_guardrails`

One equation per branch of the source function, used to settle the
guardrail claims. -/

/-- A resolved single-route response as built by the override and
normalization branches of `apply_guardrails`. -/
def resolvedResponse (item : RouteItem) (rationale : Option String) :
    RouterRouteResponse :=
  { routes := [item]
    needs_clarification := false
    clarifying_questions := []
    routing_rationale := rationale }

/-- The route produced by the coding-signal override branch. -/
def codegenOverrideItem (p : RouteItem) : RouteItem :=
  { agent_id := AgentId.codegen, confidence := max p.confidence 0.95,
    subtask := strOr p.subtask "" }

/-- The route produced by the planning-signal override branch. -/
def plannerOverrideItem (p : RouteItem) : RouteItem :=
  { agent_id := AgentId.planner, confidence := max p.confidence 0.95,
    subtask := strOr p.subtask "" }

/-- The route produced by the default normalization branch (confidence
clamped to `[0, 1]` in two steps, as in the source). -/
def clampedItem (p : RouteItem) : RouteItem :=
  { agent_id := p.agent_id
    confidence :=
      if (if p.confidence < 0 then (0 : ℚ) else p.confidence) > 1 then (1 : ℚ)
      else if p.confidence < 0 then 0 else p.confidence
    subtask := strOr p.subtask "" }

theorem ag_conflict (llm : RouterRouteResponse) (query : String)
    (sel : Option AgentId) (agents : List AgentRegistryEntry)
    (hC : guardHasCode (lowerStr query) = true)
    (hP : guardHasPlan (lowerStr query) = true) :
    apply_guardrails llm query sel agents =
      ⟨clarification_response
        ["Do you want a project plan, code changes, or both?",
         "If one: should I route this to codegen or projplan?"]
        "Request contains both planning and coding signals."
        (llm.routes.take 1), true⟩ := by
  simp [apply_guardrails, hC, hP]

theorem ag_passthrough (llm : RouterRouteResponse) (query : String)
    (sel : Option AgentId) (agents : List AgentRegistryEntry)
    (hB : (guardHasCode (lowerStr query) && guardHasPlan (lowerStr query)) = false)
    (hN : llm.needs_clarification = true) :
    apply_guardrails llm query sel agents =
      ⟨clarification_response llm.clarifying_questions
        (optStrOr llm.routing_rationale "Clarification required.")
        (llm.routes.take 1), true⟩ := by
  simp only [apply_guardrails, hB, hN]
  simp

theorem ag_sel_missing (llm : RouterRouteResponse) (query : String)
    (a : AgentId) (agents : List AgentRegistryEntry)
    (hB : (guardHasCode (lowerStr query) && guardHasPlan (lowerStr query)) = false)
    (hN : llm.needs_clarification = false)
    (hA : (enabled_agent_ids agents).contains a.value = false) :
    apply_guardrails llm query (some a) agents =
      ⟨clarification_response
        ["Selected agent_id \x27" ++ a.value ++
         "\x27 is not available. Which agent should be used?"]
        "selected_agent_id was provided but is not enabled/available.", true⟩ := by
  have hA2 : a.value ∉ enabled_agent_ids agents := by simpa using hA
  simp only [apply_guardrails, hB, hN]
  simp [hA2]

theorem ag_sel_honored (llm : RouterRouteResponse) (query : String)
    (a : AgentId) (agents : List AgentRegistryEntry)
    (hB : (guardHasCode (lowerStr query) && guardHasPlan (lowerStr query)) = false)
    (hN : llm.needs_clarification = false)
    (hA : (enabled_agent_ids agents).contains a.value = true) :
    apply_guardrails llm query (some a) agents =
      ⟨{ routes := [{ agent_id := a, confidence := 0.95,
                      subtask := match llm.routes with
                        | [] => query
                        | r :: _ => r.subtask }]
         needs_clarification := false
         clarifying_questions := []
         routing_rationale :=
           some (optStrOr llm.routing_rationale "Client selected agent.") },
       true⟩ := by
  have hA2 : a.value ∈ enabled_agent_ids agents := by simpa using hA
  simp only [apply_guardrails, hB, hN]
  simp [hA2]

theorem ag_no_routes (llm : RouterRouteResponse) (query : String)
    (agents : List AgentRegistryEntry)
    (hB : (guardHasCode (lowerStr query) && guardHasPlan (lowerStr query)) = false)
    (hN : llm.needs_clarification = false)
    (hR : llm.routes = []) :
    apply_guardrails llm query none agents =
      ⟨clarification_response ["Which agent should handle this request?"]
        (optStrOr llm.routing_rationale "No routes returned."), true⟩ := by
  simp only [apply_guardrails, hB, hN, hR]
  simp

theorem ag_unknown (llm : RouterRouteResponse) (query : String)
    (agents : List AgentRegistryEntry) (p : RouteItem) (rest : List RouteItem)
    (hB : (guardHasCode (lowerStr query) && guardHasPlan (lowerStr query)) = false)
    (hN : llm.needs_clarification = false)
    (hR : llm.routes = p :: rest)
    (hA : (enabled_agent_ids agents).contains p.agent_id.value = false) :
    apply_guardrails llm query none agents =
      ⟨clarification_response
        ["I couldn\x27t match this request to an available agent. Should I route it to codegen or projplan?"]
        ("LLM returned unknown/disabled agent_id: " ++ p.agent_id.value), true⟩ := by
  have hA2 : p.agent_id.value ∉ enabled_agent_ids agents := by simpa using hA
  simp only [apply_guardrails, hB, hN, hR]
  simp [hA2]

theorem ag_code_override (llm : RouterRouteResponse) (query : String)
    (agents : List AgentRegistryEntry) (p : RouteItem) (rest : List RouteItem)
    (hB : (guardHasCode (lowerStr query) && guardHasPlan (lowerStr query)) = false)
    (hN : llm.needs_clarification = false)
    (hR : llm.routes = p :: rest)
    (hA : (enabled_agent_ids agents).contains p.agent_id.value = true)
    (hC : guardHasCode (lowerStr query) = true)
    (hFam : p.agent_id.value = "projplan" ∨ p.agent_id.value = "planner") :
    apply_guardrails llm query none agents =
      ⟨resolvedResponse (codegenOverrideItem p)
        (some "Guardrail override: coding/debugging signals detected; routing to codegen."),
       true⟩ := by
  have hA2 : p.agent_id.value ∈ enabled_agent_ids agents := by simpa using hA
  have e1 : AgentId.projplan.value = "projplan" := rfl
  have e2 : AgentId.planner.value = "planner" := rfl
  have e3 : AgentId.codegen.value = "codegen" := rfl
  simp only [apply_guardrails, hB, hN, hR]
  rcases hFam with h | h <;>
    simp [hC, h, e1, e2, e3, h ▸ hA2, resolvedResponse, codegenOverrideItem]

theorem ag_plan_override (llm : RouterRouteResponse) (query : String)
    (agents : List AgentRegistryEntry) (p : RouteItem) (rest : List RouteItem)
    (hB : (guardHasCode (lowerStr query) && guardHasPlan (lowerStr query)) = false)
    (hN : llm.needs_clarification = false)
    (hR : llm.routes = p :: rest)
    (hA : (enabled_agent_ids agents).contains p.agent_id.value = true)
    (hP : guardHasPlan (lowerStr query) = true)
    (hCg : p.agent_id.value = "codegen") :
    apply_guardrails llm query none agents =
      ⟨resolvedResponse (plannerOverrideItem p)
        (some "Guardrail override: planning signals detected; routing to planner."),
       true⟩ := by
  have hA2 : p.agent_id.value ∈ enabled_agent_ids agents := by simpa using hA
  have e1 : AgentId.projplan.value = "projplan" := rfl
  have e2 : AgentId.planner.value = "planner" := rfl
  have e3 : AgentId.codegen.value = "codegen" := rfl
  simp only [apply_guardrails, hB, hN, hR]
  simp [hP, hCg, e1, e2, e3, hCg ▸ hA2, resolvedResponse, plannerOverrideItem]

theorem ag_normalize (llm : RouterRouteResponse) (query : String)
    (agents : List AgentRegistryEntry) (p : RouteItem) (rest : List RouteItem)
    (v : String) (hv : p.agent_id.value = v)
    (hB : (guardHasCode (lowerStr query) && guardHasPlan (lowerStr query)) = false)
    (hN : llm.needs_clarification = false)
    (hR : llm.routes = p :: rest)
    (hA : (enabled_agent_ids agents).contains v = true)
    (hO : guardHasCode (lowerStr query) = false ∨
      (v ≠ "projplan" ∧ v ≠ "planner"))
    (hO2 : guardHasPlan (lowerStr query) = false ∨ v ≠ "codegen") :
    apply_guardrails llm query none agents =
      ⟨resolvedResponse (clampedItem p) llm.routing_rationale, true⟩ := by
  subst hv
  have hA2 : p.agent_id.value ∈ enabled_agent_ids agents := by simpa using hA
  have e1 : AgentId.projplan.value = "projplan" := rfl
  have e2 : AgentId.planner.value = "planner" := rfl
  have e3 : AgentId.codegen.value = "codegen" := rfl
  simp only [apply_guardrails, hB, hN, hR]
  rcases hO with h1 | ⟨h1a, h1b⟩ <;> rcases hO2 with h2 | h2 <;>
    simp [hA2, e1, e2, e3, resolvedResponse, clampedItem, *]

/-- Splitting a false Bool conjunction of the two conflict guards. -/
theorem guard_and_false_cases {a b : Bool} (h : (a && b) = false) :
    a = false ∨ b = false := by
  cases a <;> cases b <;> simp_all

/-- The normalized question list always has between 1 and 2 entries. -/
theorem normalizedQuestions_len (questions : List String) :
    1 ≤ (normalizedQuestions questions).length ∧
    (normalizedQuestions questions).length ≤ 2 := by
  unfold normalizedQuestions
  dsimp only
  set qs0 := (questions.map pyStrip).filter (fun q => q ≠ "") with h0
  by_cases h2 : qs0.length > 2
  · rw [if_pos h2]
    have hlen : (qs0.take 2).length = 2 := by
      rw [List.length_take]; omega
    rw [if_neg (by intro h; rw [h] at hlen; simp at hlen)]
    omega
  · rw [if_neg h2]
    by_cases hnil : qs0 = []
    · rw [if_pos hnil]; simp
    · rw [if_neg hnil]
      have hpos : 0 < qs0.length := List.length_pos.mpr hnil
      omega

/-- Shape facts about every `clarification_response`. -/
theorem clarification_response_shape (questions : List String)
    (rationale : String) (routes : List RouteItem) :
    (clarification_response questions rationale routes).needs_clarification = true ∧
    (clarification_response questions rationale routes).routes.length ≤ 1 ∧
    1 ≤ (clarification_response questions rationale routes).clarifying_questions.length ∧
    (clarification_response questions rationale routes).clarifying_questions.length ≤ 2 := by
  refine ⟨rfl, ?_, (normalizedQuestions_len questions).1,
    (normalizedQuestions_len questions).2⟩
  show (routes.take 1).length ≤ 1
  exact List.length_take_le 1 routes

/-- The §8 output-shape invariant of a route decision. -/
def shapeOK (resp : RouterRouteResponse) : Prop :=
  (resp.needs_clarification = true →
    resp.routes.length ≤ 1 ∧
    1 ≤ resp.clarifying_questions.length ∧
    resp.clarifying_questions.length ≤ 2) ∧
  (resp.needs_clarification = false →
    ∃ r, resp.routes = [r] ∧ 0 ≤ r.confidence ∧ r.confidence ≤ 1 ∧
      resp.clarifying_questions = [])

/-- Every `clarification_response` satisfies the shape invariant. -/
theorem shapeOK_clarification (questions : List String) (rationale : String)
    (routes : List RouteItem) :
    shapeOK (clarification_response questions rationale routes) := by
  obtain ⟨h1, h2, h3, h4⟩ := clarification_response_shape questions rationale routes
  refine ⟨fun _ => ⟨h2, h3, h4⟩, fun hf => ?_⟩
  rw [h1] at hf
  cases hf

/-- The sequential clamp to `[0, 1]` stays in `[0, 1]`. -/
theorem clamp01_bounds (c : ℚ) :
    0 ≤ (if (if c < 0 then (0 : ℚ) else c) > 1 then (1 : ℚ)
         else if c < 0 then 0 else c) ∧
    (if (if c < 0 then (0 : ℚ) else c) > 1 then (1 : ℚ)
     else if c < 0 then 0 else c) ≤ 1 := by
  by_cases h1 : c < 0
  · rw [if_pos h1]
    norm_num
  · rw [if_neg h1]
    by_cases h2 : c > 1
    · rw [if_pos h2]
      norm_num
    · rw [if_neg h2]
      constructor <;> linarith [not_lt.mp h1, not_lt.mp h2]

/-- C5: Guardrail output shape — for every raw decision (whose route
confidences satisfy the pydantic `[0,1]` contract), query, client selection
and agent list, the decision returned by `apply_guardrails` satisfies: if
`needs_clarification` is true it has at most one route and 1..2 clarifying
questions; if false it has exactly one route with confidence in `[0,1]` and
no clarifying questions. -/
theorem guardrails_output_shape (llm : RouterRouteResponse) (query : String)
    (sel : Option AgentId) (agents : List AgentRegistryEntry)
    (hconf : ∀ r ∈ llm.routes, 0 ≤ r.confidence ∧ r.confidence ≤ 1) :
    shapeOK (apply_guardrails llm query sel agents).response := by
  by_cases hBt : (guardHasCode (lowerStr query) && guardHasPlan (lowerStr query)) = true
  · obtain ⟨hC, hP⟩ := Bool.and_eq_true_iff.mp hBt
    rw [ag_conflict llm query sel agents hC hP]
    exact shapeOK_clarification _ _ _
  · have hB : (guardHasCode (lowerStr query) && guardHasPlan (lowerStr query)) = false :=
      Bool.eq_false_iff.mpr hBt
    by_cases hN : llm.needs_clarification = true
    · rw [ag_passthrough llm query sel agents hB hN]
      exact shapeOK_clarification _ _ _
    · have hN2 : llm.needs_clarification = false := Bool.eq_false_iff.mpr hN
      cases sel with
      | some a =>
        by_cases hA : (enabled_agent_ids agents).contains a.value = true
        · rw [ag_sel_honored llm query a agents hB hN2 hA]
          refine ⟨fun h => (nomatch h), fun _ => ?_⟩
          exact ⟨_, rfl, by norm_num, by norm_num, rfl⟩
        · rw [ag_sel_missing llm query a agents hB hN2 (Bool.eq_false_iff.mpr hA)]
          exact shapeOK_clarification _ _ _
      | none =>
        cases hR : llm.routes with
        | nil =>
          rw [ag_no_routes llm query agents hB hN2 hR]
          exact shapeOK_clarification _ _ _
        | cons p rest =>
          have hpc := hconf p (by rw [hR]; exact List.mem_cons_self _ _)
          by_cases hA : (enabled_agent_ids agents).contains p.agent_id.value = true
          · by_cases hFam : p.agent_id.value = "projplan" ∨ p.agent_id.value = "planner"
            · by_cases hC : guardHasCode (lowerStr query) = true
              · rw [ag_code_override llm query agents p rest hB hN2 hR hA hC hFam]
                refine ⟨fun h => (nomatch h), fun _ => ?_⟩
                exact ⟨_, rfl, le_max_of_le_right (by norm_num),
                  max_le hpc.2 (by norm_num), rfl⟩
              · have hC2 : guardHasCode (lowerStr query) = false := Bool.eq_false_iff.mpr hC
                have hne : p.agent_id.value ≠ "codegen" := by
                  rcases hFam with h | h <;> simp [h]
                rw [ag_normalize llm query agents p rest p.agent_id.value rfl
                  hB hN2 hR hA (Or.inl hC2) (Or.inr hne)]
                refine ⟨fun h => (nomatch h), fun _ => ?_⟩
                exact ⟨_, rfl, (clamp01_bounds p.confidence).1,
                  (clamp01_bounds p.confidence).2, rfl⟩
            · push_neg at hFam
              by_cases hCg : p.agent_id.value = "codegen"
              · by_cases hP : guardHasPlan (lowerStr query) = true
                · rw [ag_plan_override llm query agents p rest hB hN2 hR hA hP hCg]
                  refine ⟨fun h => (nomatch h), fun _ => ?_⟩
                  exact ⟨_, rfl, le_max_of_le_right (by norm_num),
                    max_le hpc.2 (by norm_num), rfl⟩
                · rw [ag_normalize llm query agents p rest p.agent_id.value rfl
                    hB hN2 hR hA (Or.inr hFam) (Or.inl (Bool.eq_false_iff.mpr hP))]
                  refine ⟨fun h => (nomatch h), fun _ => ?_⟩
                  exact ⟨_, rfl, (clamp01_bounds p.confidence).1,
                    (clamp01_bounds p.confidence).2, rfl⟩
              · rw [ag_normalize llm query agents p rest p.agent_id.value rfl
                  hB hN2 hR hA (Or.inr hFam) (Or.inr hCg)]
                refine ⟨fun h => (nomatch h), fun _ => ?_⟩
                exact ⟨_, rfl, (clamp01_bounds p.confidence).1,
                  (clamp01_bounds p.confidence).2, rfl⟩
          · rw [ag_unknown llm query agents p rest hB hN2 hR (Bool.eq_false_iff.mpr hA)]
            exact shapeOK_clarification _ _ _

/-- Concrete enabled registry (codegen + planner) for scenario checks. -/
def scenarioAgents : List AgentRegistryEntry :=
  [{ agent_id := AgentId.codegen }, { agent_id := AgentId.planner }]

/-- Concrete raw decision (planner best guess) for scenario checks. -/
def scenarioRaw : RouterRouteResponse :=
  { routes := [{ agent_id := AgentId.planner, confidence := 0.9, subtask := "" }] }

/-- C2 counterexample: the scenario query "Fix the bug in checkout and also
give me a rollout timeline" has coding and planning signals but no concrete
code-artifact token, so `apply_guardrails` drops the coding signal instead of
forcing the clarification the claim describes: the result resolves with
`needs_clarification = false` and a different rationale. -/
theorem conflict_clarification_counterexample :
    (apply_guardrails scenarioRaw
      "Fix the bug in checkout and also give me a rollout timeline" none
      scenarioAgents).response.needs_clarification = false ∧
    (apply_guardrails scenarioRaw
      "Fix the bug in checkout and also give me a rollout timeline" none
      scenarioAgents).response.routing_rationale ≠
      some "Request contains both planning and coding signals." := by
  constructor
  · decide
  · decide

/-- C2 (amended): for every query carrying at least one coding signal, at
least one planning signal, AND both a strong coding action verb and a
concrete code-artifact token (the decisive pair — the source forces the
clarification exactly then, not in its absence), `apply_guardrails` returns
`needs_clarification = true` with exactly the two fixed questions, the fixed
rationale, and at most the first raw route kept as a hint. -/
theorem conflict_clarification_amended (llm : RouterRouteResponse)
    (query : String) (sel : Option AgentId) (agents : List AgentRegistryEntry)
    (hcode : guardHasCodeRaw (lowerStr query) = true)
    (hplan : guardHasPlan (lowerStr query) = true)
    (haction : guardHasCodeAction (lowerStr query) = true)
    (hartifact : guardHasCodeArtifact (lowerStr query) = true) :
    (apply_guardrails llm query sel agents).response.needs_clarification = true ∧
    (apply_guardrails llm query sel agents).response.clarifying_questions =
      ["Do you want a project plan, code changes, or both?",
       "If one: should I route this to codegen or projplan?"] ∧
    (apply_guardrails llm query sel agents).response.routing_rationale =
      some "Request contains both planning and coding signals." ∧
    (apply_guardrails llm query sel agents).response.routes =
      llm.routes.take 1 := by
  have hC : guardHasCode (lowerStr query) = true := by
    unfold guardHasCode
    rw [hplan, hcode, haction, hartifact]
    rfl
  rw [ag_conflict llm query sel agents hC hplan]
  refine ⟨rfl, ?_, rfl, ?_⟩
  · show normalizedQuestions
      ["Do you want a project plan, code changes, or both?",
       "If one: should I route this to codegen or projplan?"] =
      ["Do you want a project plan, code changes, or both?",
       "If one: should I route this to codegen or projplan?"]
    decide
  show (llm.routes.take 1).take 1 = llm.routes.take 1
  simp [List.take_take]

/-- C2 witness: a decisive-pair query forces the fixed clarification. -/
theorem conflict_clarification_witness :
    (apply_guardrails {} "fix the plan error: foo" none
      []).response.needs_clarification = true ∧
    (apply_guardrails {} "fix the plan error: foo" none
      []).response.routing_rationale =
      some "Request contains both planning and coding signals." :=
  have h := conflict_clarification_amended {} "fix the plan error: foo" none []
    (by decide) (by decide) (by decide) (by decide)
  ⟨h.1, h.2.2.1⟩

/-- C6 counterexample: on an unexpected (non-`LLMRouterError`) routing
failure the fixed question does not ask whether to use codegen or projplan,
contrary to the claim's description of the fallback question. -/
theorem route_hybrid_unexpected_question_counterexample :
    (route_hybrid [] { query := "please route this" } false
      LLMOutcome.unexpectedError).clarifying_questions =
      ["I couldn\x27t route this request. Could you clarify your goal?"] ∧
    ((route_hybrid [] { query := "please route this" } false
      LLMOutcome.unexpectedError).clarifying_questions.all
        (fun q => !(strContains q "codegen") && !(strContains q "projplan")))
      = true := by
  constructor
  · decide
  · decide

/-- C6 (amended): a routing-source failure never propagates: `route_hybrid`
returns a clarification decision (`needs_clarification = true`, no routes);
on `LLMRouterError` the fixed question asks whether to send the request to
codegen or projplan, while on any other exception the fixed question asks
the user to clarify their goal. -/
theorem route_hybrid_fail_soft (agents_all : List AgentRegistryEntry)
    (request : RouterRouteRequest) (llm : LLMOutcome)
    (hfail : llm = LLMOutcome.routerError ∨ llm = LLMOutcome.unexpectedError) :
    (route_hybrid agents_all request false llm).needs_clarification = true ∧
    (route_hybrid agents_all request false llm).routes = [] ∧
    (llm = LLMOutcome.routerError →
      (route_hybrid agents_all request false llm).clarifying_questions =
        ["I couldn\x27t confidently route this request. Should I send it to codegen or projplan?"]) ∧
    (llm = LLMOutcome.unexpectedError →
      (route_hybrid agents_all request false llm).clarifying_questions =
        ["I couldn\x27t route this request. Could you clarify your goal?"]) := by
  rcases hfail with h | h
  · subst h
    refine ⟨rfl, rfl, fun _ => ?_, fun h2 => (nomatch h2)⟩
    show normalizedQuestions
      ["I couldn\x27t confidently route this request. Should I send it to codegen or projplan?"] =
      ["I couldn\x27t confidently route this request. Should I send it to codegen or projplan?"]
    decide
  · subst h
    refine ⟨rfl, rfl, fun h2 => (nomatch h2), fun _ => ?_⟩
    show normalizedQuestions
      ["I couldn\x27t route this request. Could you clarify your goal?"] =
      ["I couldn\x27t route this request. Could you clarify your goal?"]
    decide

/-- C6 witness: the fail-soft clarification at a concrete failed call. -/
theorem route_hybrid_fail_soft_witness :
    (route_hybrid [] { query := "q" } false
      LLMOutcome.routerError).needs_clarification = true ∧
    (route_hybrid [] { query := "q" } false
      LLMOutcome.routerError).routes = [] :=
  have h := route_hybrid_fail_soft [] { query := "q" } LLMOutcome.routerError
    (Or.inl rfl)
  ⟨h.1, h.2.1⟩

/-- Registry with only projplan enabled, for the C9 counterexample. -/
def projplanOnlyAgents : List AgentRegistryEntry :=
  [{ agent_id := AgentId.projplan }]

/-- Raw decision routing to projplan, for the C9 counterexample. -/
def projplanRaw : RouterRouteResponse :=
  { routes := [{ agent_id := AgentId.projplan, confidence := 0.9, subtask := "" }] }

/-- C9 counterexample: with only projplan enabled and the query "fix", the
first guardrail run overrides the route to codegen (resolved); re-running the
guardrails on that output flips `needs_clarification` to true and drops the
codegen route — the second run does not preserve the route or the flag. -/
theorem guardrail_idempotence_counterexample :
    (apply_guardrails projplanRaw "fix" none
      projplanOnlyAgents).response.needs_clarification = false ∧
    ((apply_guardrails projplanRaw "fix" none
      projplanOnlyAgents).response.routes.map RouteItem.agent_id =
      [AgentId.codegen]) ∧
    (apply_guardrails (apply_guardrails projplanRaw "fix" none
      projplanOnlyAgents).response "fix" none
      projplanOnlyAgents).response.needs_clarification = true ∧
    (apply_guardrails (apply_guardrails projplanRaw "fix" none
      projplanOnlyAgents).response "fix" none
      projplanOnlyAgents).response.routes = [] := by
  refine ⟨?_, ?_, ?_, ?_⟩ <;> decide

/-- C9 (amended): provided the guardrail override targets codegen and
planner are among the enabled agent ids, re-running `apply_guardrails` on
its own output (same query, selection, agents) preserves the
`needs_clarification` flag and the routed agent id (`changed` is still
reported true, as every branch reconstructs the response).  Without that
proviso a signal-override can target a disabled agent and the second run
downgrades it to a clarification (see the counterexample). -/
theorem guardrail_idempotence (llm : RouterRouteResponse) (query : String)
    (sel : Option AgentId) (agents : List AgentRegistryEntry)
    (hcg : (enabled_agent_ids agents).contains "codegen" = true)
    (hpl : (enabled_agent_ids agents).contains "planner" = true) :
    ((apply_guardrails (apply_guardrails llm query sel agents).response
        query sel agents).response.needs_clarification =
      (apply_guardrails llm query sel agents).response.needs_clarification) ∧
    ((apply_guardrails (apply_guardrails llm query sel agents).response
        query sel agents).response.routes.head?.map RouteItem.agent_id =
      (apply_guardrails llm query sel agents).response.routes.head?.map
        RouteItem.agent_id) ∧
    (apply_guardrails (apply_guardrails llm query sel agents).response
      query sel agents).changed = true := by
  by_cases hBt : (guardHasCode (lowerStr query) && guardHasPlan (lowerStr query)) = true
  · obtain ⟨hC, hP⟩ := Bool.and_eq_true_iff.mp hBt
    rw [ag_conflict llm query sel agents hC hP]
    rw [ag_conflict _ query sel agents hC hP]
    refine ⟨rfl, ?_, rfl⟩
    simp [clarification_response, List.take_take]
  · have hB : (guardHasCode (lowerStr query) && guardHasPlan (lowerStr query)) = false :=
      Bool.eq_false_iff.mpr hBt
    by_cases hN : llm.needs_clarification = true
    · rw [ag_passthrough llm query sel agents hB hN]
      rw [ag_passthrough _ query sel agents hB rfl]
      refine ⟨rfl, ?_, rfl⟩
      simp [clarification_response, List.take_take]
    · have hN2 : llm.needs_clarification = false := Bool.eq_false_iff.mpr hN
      cases sel with
      | some a =>
        by_cases hA : (enabled_agent_ids agents).contains a.value = true
        · rw [ag_sel_honored llm query a agents hB hN2 hA]
          rw [ag_sel_honored _ query a agents hB rfl hA]
          exact ⟨rfl, rfl, rfl⟩
        · rw [ag_sel_missing llm query a agents hB hN2 (Bool.eq_false_iff.mpr hA)]
          rw [ag_passthrough _ query (some a) agents hB rfl]
          refine ⟨rfl, ?_, rfl⟩
          simp [clarification_response, List.take_take]
      | none =>
        cases hR : llm.routes with
        | nil =>
          rw [ag_no_routes llm query agents hB hN2 hR]
          rw [ag_passthrough _ query none agents hB rfl]
          refine ⟨rfl, ?_, rfl⟩
          simp [clarification_response, List.take_take]
        | cons p rest =>
          by_cases hA : (enabled_agent_ids agents).contains p.agent_id.value = true
          · by_cases hFam : p.agent_id.value = "projplan" ∨ p.agent_id.value = "planner"
            · by_cases hC : guardHasCode (lowerStr query) = true
              · -- first run overrides to codegen; second run normalizes it
                have hPf : guardHasPlan (lowerStr query) = false := by
                  rcases guard_and_false_cases hB with h | h
                  · rw [hC] at h; cases h
                  · exact h
                rw [ag_code_override llm query agents p rest hB hN2 hR hA hC hFam]
                rw [ag_normalize
                  (resolvedResponse (codegenOverrideItem p)
                    (some "Guardrail override: coding/debugging signals detected; routing to codegen."))
                  query agents (codegenOverrideItem p) [] "codegen" rfl hB rfl
                  rfl hcg (Or.inr ⟨by decide, by decide⟩) (Or.inl hPf)]
                exact ⟨rfl, rfl, rfl⟩
              · have hC2 : guardHasCode (lowerStr query) = false := Bool.eq_false_iff.mpr hC
                have hne : p.agent_id.value ≠ "codegen" := by
                  rcases hFam with h | h <;> simp [h]
                rw [ag_normalize llm query agents p rest p.agent_id.value rfl
                  hB hN2 hR hA (Or.inl hC2) (Or.inr hne)]
                rw [ag_normalize
                  (resolvedResponse (clampedItem p) llm.routing_rationale)
                  query agents (clampedItem p) [] p.agent_id.value rfl hB rfl
                  rfl hA (Or.inl hC2) (Or.inr hne)]
                exact ⟨rfl, rfl, rfl⟩
            · push_neg at hFam
              by_cases hCg : p.agent_id.value = "codegen"
              · by_cases hP : guardHasPlan (lowerStr query) = true
                · -- first run overrides to planner; second run normalizes it
                  have hCf : guardHasCode (lowerStr query) = false := by
                    rcases guard_and_false_cases hB with h | h
                    · exact h
                    · rw [hP] at h; cases h
                  rw [ag_plan_override llm query agents p rest hB hN2 hR hA hP hCg]
                  rw [ag_normalize
                    (resolvedResponse (plannerOverrideItem p)
                      (some "Guardrail override: planning signals detected; routing to planner."))
                    query agents (plannerOverrideItem p) [] "planner" rfl hB
                    rfl rfl hpl (Or.inl hCf) (Or.inr (by decide))]
                  exact ⟨rfl, rfl, rfl⟩
                · rw [ag_normalize llm query agents p rest p.agent_id.value rfl
                    hB hN2 hR hA (Or.inr hFam) (Or.inl (Bool.eq_false_iff.mpr hP))]
                  rw [ag_normalize
                    (resolvedResponse (clampedItem p) llm.routing_rationale)
                    query agents (clampedItem p) [] p.agent_id.value rfl hB rfl
                    rfl hA (Or.inr hFam) (Or.inl (Bool.eq_false_iff.mpr hP))]
                  exact ⟨rfl, rfl, rfl⟩
              · rw [ag_normalize llm query agents p rest p.agent_id.value rfl
                  hB hN2 hR hA (Or.inr hFam) (Or.inr hCg)]
                rw [ag_normalize
                  (resolvedResponse (clampedItem p) llm.routing_rationale)
                  query agents (clampedItem p) [] p.agent_id.value rfl hB rfl
                  rfl hA (Or.inr hFam) (Or.inr hCg)]
                exact ⟨rfl, rfl, rfl⟩
          · rw [ag_unknown llm query agents p rest hB hN2 hR (Bool.eq_false_iff.mpr hA)]
            rw [ag_passthrough _ query none agents hB rfl]
            refine ⟨rfl, ?_, rfl⟩
            simp [clarification_response, List.take_take]

/-- C9 witness: idempotence at a concrete run with both override targets
enabled. -/
theorem guardrail_idempotence_witness :
    (apply_guardrails (apply_guardrails scenarioRaw "make a timeline plan"
        none scenarioAgents).response "make a timeline plan" none
      scenarioAgents).response.needs_clarification =
      (apply_guardrails scenarioRaw "make a timeline plan" none
        scenarioAgents).response.needs_clarification :=
  (guardrail_idempotence scenarioRaw "make a timeline plan" none
    scenarioAgents (by decide) (by decide)).1

/-! ## Store lemmas -/

theorem alGet_map_set {α : Type} (l : List (String × α)) (k : String) (v : α)
    (h : alHas l k = true) :
    alGet (l.map (fun p => if p.1 == k then (k, v) else p)) k = some v := by
  induction l with
  | nil => simp [alHas] at h
  | cons q t ih =>
    by_cases hq : q.1 == k
    · simp [alGet, List.find?, hq]
    · have h2 : alHas t k = true := by
        simpa [alHas, hq] using h
      have := ih h2
      simpa [alGet, List.find?, hq] using this

theorem alGet_append_single {α : Type} (l : List (String × α)) (k : String)
    (v : α) (h : alHas l k = false) :
    alGet (l ++ [(k, v)]) k = some v := by
  induction l with
  | nil => simp [alGet, List.find?]
  | cons q t ih =>
    have hx : (q.1 == k || alHas t k) = false := h
    have hq : (q.1 == k) = false := (Bool.or_eq_false_iff.mp hx).1
    have h2 : alHas t k = false := (Bool.or_eq_false_iff.mp hx).2
    have := ih h2
    simpa [alGet, List.find?, hq] using this

theorem alGet_alSet_self {α : Type} (l : List (String × α)) (k : String)
    (v : α) : alGet (alSet l k v) k = some v := by
  unfold alSet
  by_cases h : alHas l k = true
  · rw [if_pos h]
    exact alGet_map_set l k v h
  · rw [if_neg h]
    exact alGet_append_single l k v (Bool.eq_false_iff.mpr h)

theorem storeGetChat_createChat (s : Store) (title freshId : String) :
    storeGetChat (storeCreateChat s title freshId).1 freshId =
      some (storeCreateChat s title freshId).2 := by
  unfold storeCreateChat storeGetChat
  exact alGet_alSet_self _ _ _

theorem storeGetChat_createMessage (s : Store) (cid : String) (ch : Chat)
    (hg : storeGetChat s cid = some ch) (role : MessageRole) (content : String)
    (rm : Option RoutingMeta) (arts : List Artifact)
    (sr : Option (List String)) :
    storeGetChat (storeCreateMessage s cid role content rm arts sr) cid =
      some { ch with updated_at := s.tick } := by
  unfold storeGetChat at hg
  unfold storeCreateMessage
  rw [hg]
  exact alGet_alSet_self _ _ _

theorem storeGetChat_setPending (s : Store) (cid : String) (ch : Chat)
    (hg : storeGetChat s cid = some ch) (p : Option PendingContinuation) :
    storeGetChat (storeSetPendingContinuation s cid p) cid =
      some { ch with pending_continuation := p, updated_at := s.tick } := by
  unfold storeGetChat at hg
  unfold storeSetPendingContinuation
  rw [hg]
  exact alGet_alSet_self _ _ _

theorem storeGetChat_setRouted (s : Store) (cid : String) (ch : Chat)
    (hg : storeGetChat s cid = some ch) (aid : Option String) :
    storeGetChat (storeSetRoutedAgentId s cid aid) cid =
      some { ch with routed_agent_id := aid, updated_at := s.tick } := by
  unfold storeGetChat at hg
  unfold storeSetRoutedAgentId
  rw [hg]
  exact alGet_alSet_self _ _ _

theorem storeCreateMessage_tick (s : Store) (cid : String) (ch : Chat)
    (hg : storeGetChat s cid = some ch) (role : MessageRole) (content : String)
    (rm : Option RoutingMeta) (arts : List Artifact)
    (sr : Option (List String)) :
    (storeCreateMessage s cid role content rm arts sr).tick = s.tick + 1 := by
  unfold storeGetChat at hg
  unfold storeCreateMessage
  rw [hg]

theorem storeSetRoutedAgentId_tick (s : Store) (cid : String) (ch : Chat)
    (hg : storeGetChat s cid = some ch) (aid : Option String) :
    (storeSetRoutedAgentId s cid aid).tick = s.tick + 1 := by
  unfold storeGetChat at hg
  unfold storeSetRoutedAgentId
  rw [hg]

theorem storeSetPending_tick (s : Store) (cid : String) (ch : Chat)
    (hg : storeGetChat s cid = some ch) (p : Option PendingContinuation) :
    (storeSetPendingContinuation s cid p).tick = s.tick + 1 := by
  unfold storeGetChat at hg
  unfold storeSetPendingContinuation
  rw [hg]

/-! ## String-stripping lemmas -/

theorem strExt {a b : String} (h : a.data = b.data) : a = b := by
  cases a with
  | mk da =>
    cases b with
    | mk db =>
      cases h
      rfl

theorem data_append (a b : String) : (a ++ b).data = a.data ++ b.data := rfl

theorem strContains_iff (hay needle : String) :
    strContains hay needle = true ↔ needle.data <:+: hay.data :=
  decide_eq_true_iff

theorem dropWhile_head_not {α : Type} (p : α → Bool) (l : List α) (c : α)
    (h : (l.dropWhile p).head? = some c) : p c = false := by
  induction l with
  | nil => simp [List.dropWhile] at h
  | cons a t ih =>
    rw [List.dropWhile_cons] at h
    by_cases hp : p a = true
    · rw [if_pos hp] at h
      exact ih h
    · rw [if_neg hp] at h
      have : a = c := by simpa using h
      rw [← this]
      exact Bool.eq_false_iff.mpr hp

theorem dropWhile_idem {α : Type} (p : α → Bool) (l : List α) :
    (l.dropWhile p).dropWhile p = l.dropWhile p := by
  cases hh : l.dropWhile p with
  | nil => rfl
  | cons a t =>
    have ha : p a = false := by
      apply dropWhile_head_not p l
      rw [hh]
      rfl
    rw [List.dropWhile_cons, if_neg (by simp [ha])]

theorem stripLeft_append {l m : List Char} (h : stripLeft l ≠ []) :
    stripLeft (l ++ m) = stripLeft l ++ m := by
  unfold stripLeft at h ⊢
  rw [List.dropWhile_append]
  have hne : (l.dropWhile Char.isWhitespace).isEmpty = false := by
    cases hdd : l.dropWhile Char.isWhitespace with
    | nil => exact absurd hdd h
    | cons a t => rfl
  rw [hne]
  simp

theorem stripRight_append {l m : List Char} (h : stripRight m ≠ []) :
    stripRight (l ++ m) = l ++ stripRight m := by
  unfold stripRight at h ⊢
  have hd : m.reverse.dropWhile Char.isWhitespace ≠ [] := by
    intro hc
    apply h
    rw [hc]
    rfl
  have hne : (m.reverse.dropWhile Char.isWhitespace).isEmpty = false := by
    cases hdd : m.reverse.dropWhile Char.isWhitespace with
    | nil => exact absurd hdd hd
    | cons a t => rfl
  rw [List.reverse_append, List.dropWhile_append, hne]
  simp

theorem stripRight_append_ws {l : List Char} {c : Char}
    (h : c.isWhitespace = true) : stripRight (l ++ [c]) = stripRight l := by
  unfold stripRight
  rw [List.reverse_append, List.reverse_singleton, List.singleton_append,
    List.dropWhile_cons, if_pos h]

theorem stripRight_idem (l : List Char) :
    stripRight (stripRight l) = stripRight l := by
  unfold stripRight
  rw [List.reverse_reverse, dropWhile_idem]

theorem stripRight_pyStrip (s : String) :
    stripRight (pyStrip s).data = (pyStrip s).data :=
  stripRight_idem (stripLeft s.data)

theorem strData_ne_nil {s : String} (h : s ≠ "") : s.data ≠ [] := by
  intro hd
  apply h
  apply strExt
  rw [hd]

theorem append_ne_nil_right {α : Type} {l m : List α} (h : m ≠ []) :
    l ++ m ≠ [] := by
  intro hc
  exact h (List.append_eq_nil.mp hc).2

theorem infix_append_left {α : Type} {x m : List α} (l : List α)
    (h : x <:+: m) : x <:+: l ++ m :=
  h.trans (List.suffix_append l m).isInfix

theorem infix_append_right {α : Type} {x l : List α} (r : List α)
    (h : x <:+: l) : x <:+: l ++ r :=
  h.trans (List.prefix_append l r).isInfix

/-- Normal form of the combined continuation task: header, original block,
answer header, the stripped answer when non-empty, and the trailing
newline. -/
theorem combined_task_data (q1 q2 : String) :
    (combined_task_of q1 q2).data =
      "ORIGINAL USER REQUEST:\n".data ++
        ((combinedOriginal q1).data ++
          ("\n\nUSER CLARIFICATION ANSWER:".data ++
            ((if pyStrip q2 = "" then [] else '\n' :: (pyStrip q2).data) ++
              ['\n']))) := by
  unfold combined_task_of
  dsimp only
  rw [data_append]
  have hfuse : ∀ X : List Char,
      "\n\n".data ++ ("USER CLARIFICATION ANSWER:\n".data ++ X) =
        "\n\nUSER CLARIFICATION ANSWER:".data ++ ('\n' :: X) := fun X => rfl
  have hX : (pyJoin "\n\n"
      ["ORIGINAL USER REQUEST:\n" ++ combinedOriginal q1,
       "USER CLARIFICATION ANSWER:\n" ++ pyStrip q2]).data =
      "ORIGINAL USER REQUEST:\n".data ++
        ((combinedOriginal q1).data ++
          ("\n\nUSER CLARIFICATION ANSWER:".data ++
            ('\n' :: (pyStrip q2).data))) := by
    simp [pyJoin, data_append, List.append_assoc, hfuse]
  have hps : (pyStrip (pyJoin "\n\n"
      ["ORIGINAL USER REQUEST:\n" ++ combinedOriginal q1,
       "USER CLARIFICATION ANSWER:\n" ++ pyStrip q2])).data =
      stripRight (stripLeft (pyJoin "\n\n"
        ["ORIGINAL USER REQUEST:\n" ++ combinedOriginal q1,
         "USER CLARIFICATION ANSWER:\n" ++ pyStrip q2]).data) := rfl
  rw [hps, hX]
  have hnl : "\n".data = ['\n'] := rfl
  rw [hnl]
  have hA : stripLeft "ORIGINAL USER REQUEST:\n".data =
      "ORIGINAL USER REQUEST:\n".data := by decide
  rw [stripLeft_append (by rw [hA]; decide), hA]
  by_cases hq2 : pyStrip q2 = ""
  · have hc : (pyStrip q2).data = ([] : List Char) := by rw [hq2]
    rw [if_pos hq2, hc]
    have s1 : stripRight ("\n\nUSER CLARIFICATION ANSWER:".data ++
        ['\n']) = "\n\nUSER CLARIFICATION ANSWER:".data := by
      rw [stripRight_append_ws (by decide)]
      decide
    have s2 : stripRight ((combinedOriginal q1).data ++
        ("\n\nUSER CLARIFICATION ANSWER:".data ++ ['\n'])) =
        (combinedOriginal q1).data ++
          "\n\nUSER CLARIFICATION ANSWER:".data := by
      rw [stripRight_append (by rw [s1]; decide), s1]
    rw [stripRight_append (by rw [s2]; exact append_ne_nil_right (by decide)),
      s2]
    simp [List.append_assoc]
  · have hCne : (pyStrip q2).data ≠ [] := strData_ne_nil hq2
    have hCd := stripRight_pyStrip q2
    rw [if_neg hq2]
    have t1 : stripRight ('\n' :: (pyStrip q2).data) =
        '\n' :: (pyStrip q2).data := by
      have h2 : stripRight (['\n'] ++ (pyStrip q2).data) =
          ['\n'] ++ stripRight (pyStrip q2).data :=
        stripRight_append (by rw [hCd]; exact hCne)
      simpa [hCd] using h2
    have t2 : stripRight ("\n\nUSER CLARIFICATION ANSWER:".data ++
        ('\n' :: (pyStrip q2).data)) =
        "\n\nUSER CLARIFICATION ANSWER:".data ++
          ('\n' :: (pyStrip q2).data) := by
      rw [stripRight_append (by rw [t1]; exact List.cons_ne_nil _ _), t1]
    have t3 : stripRight ((combinedOriginal q1).data ++
        ("\n\nUSER CLARIFICATION ANSWER:".data ++
          ('\n' :: (pyStrip q2).data))) =
        (combinedOriginal q1).data ++
          ("\n\nUSER CLARIFICATION ANSWER:".data ++
            ('\n' :: (pyStrip q2).data)) := by
      rw [stripRight_append
        (by rw [t2]; exact append_ne_nil_right (List.cons_ne_nil _ _)), t2]
    rw [stripRight_append
      (by rw [t3]; exact append_ne_nil_right (append_ne_nil_right
        (List.cons_ne_nil _ _))), t3]
    simp [List.append_assoc]

/-- The combined-task formula exactly as the spec states it: header plus
original block plus answer header plus stripped answer, stripped, with a
trailing newline. -/
def specCombinedTask (q1 a2 : String) : String :=
  pyStrip ("ORIGINAL USER REQUEST:\n" ++ combinedOriginal q1 ++
    "\n\nUSER CLARIFICATION ANSWER:\n" ++ pyStrip a2) ++ "\n"

theorem combined_task_eq_spec (q1 a2 : String) :
    combined_task_of q1 a2 = specCombinedTask q1 a2 := by
  unfold combined_task_of specCombinedTask
  dsimp only
  congr 1
  apply congrArg
  apply strExt
  have hfuse2 : ∀ X : List Char,
      "\n\n".data ++ ("USER CLARIFICATION ANSWER:\n".data ++ X) =
        "\n\nUSER CLARIFICATION ANSWER:\n".data ++ X := fun X => rfl
  simp [pyJoin, data_append, List.append_assoc, hfuse2]

theorem combined_task_contains (q1 q2 : String) :
    strContains (combined_task_of q1 q2) "ORIGINAL USER REQUEST:" = true ∧
    strContains (combined_task_of q1 q2) "USER CLARIFICATION ANSWER:" = true ∧
    strContains (combined_task_of q1 q2) (combinedOriginal q1) = true ∧
    strContains (combined_task_of q1 q2) (pyStrip q2) = true := by
  refine ⟨?_, ?_, ?_, ?_⟩ <;> rw [strContains_iff, combined_task_data]
  · exact infix_append_right _ (by decide)
  · exact infix_append_left _ (infix_append_left _
      (infix_append_right _ (by decide)))
  · exact infix_append_left _ (infix_append_right _ List.infix_rfl)
  · by_cases hq2 : pyStrip q2 = ""
    · rw [hq2, if_pos rfl]
      exact List.nil_infix
    · rw [if_neg hq2]
      exact infix_append_left _ (infix_append_left _ (infix_append_left _
        (infix_append_right _ (List.suffix_cons '\n' _).isInfix)))

/-- The request-wins shallow merge holds on both branches of the
continuation context build (merging with an empty request context is the
identity). -/
theorem combined_context_eq (snapshot reqCtx : Ctx) :
    combined_context_of snapshot reqCtx = ctxUpdate snapshot reqCtx := by
  unfold combined_context_of
  by_cases h : reqCtx = ([] : Ctx)
  · rw [if_pos h, h]
    rfl
  · rw [if_neg h]

/-! ## Closed forms for the branches of `execute` -/

/-- The assistant content recorded on a successful continuation turn. -/
def continuationAssistantContent (ar : AgentInvokeResponse) : String :=
  if ar.notes = [] then "(no notes)" else pyJoin "\n" ar.notes

/-- The synthesized route response of a successful continuation turn. -/
def continuationRouteResponse (aid : AgentId) : RouterRouteResponse :=
  { routes := [⟨aid, 1, "continuation"⟩]
    needs_clarification := false
    clarifying_questions := []
    routing_rationale := some "Auto-continued from pending clarification." }

/-- The store after a successful continuation turn: user message, assistant
message, then the unconditional pending-continuation clear. -/
def continuationStoreAfter (s1 : Store) (cid : String) (query : String)
    (aid : AgentId) (ar : AgentInvokeResponse) : Store :=
  storeSetPendingContinuation
    (storeCreateMessage
      (storeCreateMessage s1 cid .user query none [] none)
      cid .assistant (continuationAssistantContent ar)
      (some ⟨aid, 1, .forced⟩) ar.artifacts none)
    cid none

/-- The store after the route-level clarification persistence block of
`executeRouted`, when the route response proposes at least one route. -/
def clarifyPersistStore (s1 : Store) (cid : String)
    (req : RouterExecuteRequest) (rr : RouterRouteResponse) (p : RouteItem) :
    Store :=
  let s2 := storeCreateMessage s1 cid .user req.query none [] none
  let clarifying_text :=
    strOr (pyJoin "\n" rr.clarifying_questions) "Please clarify your request."
  let s3 := storeCreateMessage s2 cid .assistant clarifying_text
    (some ⟨p.agent_id, p.confidence, .auto⟩) [] (some rr.clarifying_questions)
  let s4 := storeSetRoutedAgentId s3 cid (some p.agent_id.value)
  storeSetPendingContinuation s4 cid (some ⟨p.agent_id, req.query, req.context⟩)

/-- The response payload of a successful continuation turn. -/
def continuationResponse (cid : String) (aid : AgentId)
    (ar : AgentInvokeResponse) : RouterExecuteResponse :=
  { route_response := continuationRouteResponse aid
    agent_response := some ar
    chat_id := some cid }

/-- The response payload of the persisted route-level clarification turn. -/
def clarifyPersistResponse (cid : String) (rr : RouterRouteResponse) :
    RouterExecuteResponse :=
  { route_response := rr, agent_response := none, chat_id := some cid }

theorem ensure_existing (store : Store) (freshId cid query : String)
    (chat : Chat) (hne : cid ≠ "") (hget : storeGetChat store cid = some chat) :
    ensure_chat_id_for_persist store freshId (some cid) query =
      .ok (cid, store) := by
  simp only [ensure_chat_id_for_persist]
  rw [if_neg hne, hget]

theorem execute_persist_existing
    (routeFn : RouterRouteRequest → Bool → RouterRouteResponse)
    (invokeFn : AgentId → AgentInvokeRequest →
      Except AgentInvokeError AgentInvokeResponse)
    (freshId : String) (store : Store) (req : RouterExecuteRequest)
    (cid : String) (chat : Chat) (hp : req.persist = true)
    (hcid : req.chat_id = some cid) (hne : cid ≠ "")
    (hget : storeGetChat store cid = some chat) :
    execute routeFn invokeFn freshId store req =
      (match executeContinuation invokeFn store req (some cid) with
       | some out => out
       | none => executeRouted routeFn invokeFn freshId store req (some cid)) := by
  simp only [execute]
  rw [if_pos hp, hcid, ensure_existing store freshId cid req.query chat hne hget]

theorem execute_persist_create
    (routeFn : RouterRouteRequest → Bool → RouterRouteResponse)
    (invokeFn : AgentId → AgentInvokeRequest →
      Except AgentInvokeError AgentInvokeResponse)
    (freshId : String) (store : Store) (req : RouterExecuteRequest)
    (hp : req.persist = true) (hcid : req.chat_id = none) :
    execute routeFn invokeFn freshId store req =
      (let s1 := (storeCreateChat store
        (strTake (strOr req.query "New chat") 40) freshId).1
       match executeContinuation invokeFn s1 req (some freshId) with
       | some out => out
       | none => executeRouted routeFn invokeFn freshId s1 req (some freshId)) := by
  simp only [execute]
  rw [if_pos hp, hcid]
  simp only [ensure_chat_id_for_persist]
  have hcc : (storeCreateChat store
      (strTake (strOr req.query "New chat") 40) freshId).2.chat_id =
        freshId := rfl
  rw [hcc]

theorem executeContinuation_no_pending
    (invokeFn : AgentId → AgentInvokeRequest →
      Except AgentInvokeError AgentInvokeResponse)
    (s1 : Store) (req : RouterExecuteRequest) (cid : String) (chat : Chat)
    (hget : storeGetChat s1 cid = some chat)
    (hpend : chat.pending_continuation = none) :
    executeContinuation invokeFn s1 req (some cid) = none := by
  simp only [executeContinuation]
  by_cases h : req.persist = true ∧ cid ≠ ""
  · rw [if_pos h, hget]
    dsimp only
    rw [hpend]
  · rw [if_neg h]

theorem executeContinuation_ok
    (invokeFn : AgentId → AgentInvokeRequest →
      Except AgentInvokeError AgentInvokeResponse)
    (s1 : Store) (req : RouterExecuteRequest) (cid : String) (chat : Chat)
    (pending : PendingContinuation) (ar : AgentInvokeResponse)
    (hp : req.persist = true) (hne : cid ≠ "")
    (hget : storeGetChat s1 cid = some chat)
    (hpend : chat.pending_continuation = some pending)
    (hinv : invokeFn pending.agent_id
      { agent_id := pending.agent_id
        task := combined_task_of pending.original_query req.query
        context := combined_context_of pending.context_snapshot req.context } =
      .ok ar) :
    executeContinuation invokeFn s1 req (some cid) =
      some { result := .ok (continuationResponse cid pending.agent_id ar),
             store := continuationStoreAfter s1 cid req.query
               pending.agent_id ar,
             events := [Event.invokeEv pending.agent_id
               (combined_task_of pending.original_query req.query)
               (combined_context_of pending.context_snapshot req.context)] } := by
  simp only [executeContinuation]
  rw [if_pos ⟨hp, hne⟩, hget]
  dsimp only
  rw [hpend]
  dsimp only
  rw [hinv]
  rfl

theorem executeContinuation_err
    (invokeFn : AgentId → AgentInvokeRequest →
      Except AgentInvokeError AgentInvokeResponse)
    (s1 : Store) (req : RouterExecuteRequest) (cid : String) (chat : Chat)
    (pending : PendingContinuation) (e : AgentInvokeError)
    (hp : req.persist = true) (hne : cid ≠ "")
    (hget : storeGetChat s1 cid = some chat)
    (hpend : chat.pending_continuation = some pending)
    (hinv : invokeFn pending.agent_id
      { agent_id := pending.agent_id
        task := combined_task_of pending.original_query req.query
        context := combined_context_of pending.context_snapshot req.context } =
      .error e) :
    executeContinuation invokeFn s1 req (some cid) =
      some { result := .error (httpOfInvokeErr e),
             store := s1,
             events := [Event.invokeEv pending.agent_id
               (combined_task_of pending.original_query req.query)
               (combined_context_of pending.context_snapshot req.context)] } := by
  simp only [executeContinuation]
  rw [if_pos ⟨hp, hne⟩, hget]
  dsimp only
  rw [hpend]
  dsimp only
  rw [hinv]

theorem executeRouted_clarify_persist
    (routeFn : RouterRouteRequest → Bool → RouterRouteResponse)
    (invokeFn : AgentId → AgentInvokeRequest →
      Except AgentInvokeError AgentInvokeResponse)
    (freshChatId : String) (s1 : Store) (req : RouterExecuteRequest)
    (cid : String) (p : RouteItem) (rest : List RouteItem)
    (hp : req.persist = true) (hne : cid ≠ "")
    (hnc : (routeFn (routeReqOf req (some cid))
      (decide (req.mode = RoutingMode.forced))).needs_clarification = true)
    (hroutes : (routeFn (routeReqOf req (some cid))
      (decide (req.mode = RoutingMode.forced))).routes = p :: rest) :
    executeRouted routeFn invokeFn freshChatId s1 req (some cid) =
      { result := .ok (clarifyPersistResponse cid
            (routeFn (routeReqOf req (some cid))
              (decide (req.mode = RoutingMode.forced)))),
        store := clarifyPersistStore s1 cid req
          (routeFn (routeReqOf req (some cid))
            (decide (req.mode = RoutingMode.forced))) p,
        events := [Event.routeEv (routeReqOf req (some cid))
          (decide (req.mode = RoutingMode.forced))] } := by
  simp only [executeRouted]
  rw [if_pos hnc]
  rw [if_pos ⟨hp, hne⟩, hroutes]
  rfl

/-! ## Concrete stubs shared by the execute witnesses -/

/-- Routing stub: a clarification with a planner best guess. -/
def stubRouteClarify : RouterRouteRequest → Bool → RouterRouteResponse :=
  fun _ _ =>
    { routes := [{ agent_id := .planner, confidence := 0.9, subtask := "" }]
      needs_clarification := true
      clarifying_questions := ["Do you want a project plan, code changes, or both?"]
      routing_rationale := some "Ambiguous" }

/-- Agent stub: succeeds with a note. -/
def stubInvokeOk :
    AgentId → AgentInvokeRequest → Except AgentInvokeError AgentInvokeResponse :=
  fun aid _ => .ok { agent_id := aid, status := .ok, notes := ["ok"] }

/-- Agent stub: asks a follow-up clarification. -/
def stubInvokeClarify :
    AgentId → AgentInvokeRequest → Except AgentInvokeError AgentInvokeResponse :=
  fun aid _ => .ok
    { agent_id := aid, status := .needs_clarification,
      clarifying_questions := ["Which file should I change?"] }

/-- A stored pending continuation from an ambiguous planning request. -/
def pendingMVP : PendingContinuation :=
  { agent_id := .planner,
    original_query := "Build an MVP by May 1, budget $20k",
    context_snapshot := [("stack", Val.vstr "FastAPI + React")] }

/-- A chat carrying `pendingMVP`. -/
def chatC1 : Chat :=
  { chat_id := "c1", title := "t", created_at := 0, updated_at := 0,
    pending_continuation := some pendingMVP }

/-- A store holding one chat `"c1"` with a stored pending continuation. -/
def storeWithPending : Store :=
  { chats := [("c1", chatC1)]
    messages_by_chat := [("c1", [])]
    tick := 1 }

/-- A concrete raw decision used by the C5 witness. -/
def c5Raw : RouterRouteResponse :=
  { routes := [{ agent_id := AgentId.codegen, confidence := 0.9,
                 subtask := "make a widget" }] }

/-- A concrete agent registry used by the C5 witness. -/
def c5Agents : List AgentRegistryEntry := [{ agent_id := AgentId.codegen }]

/-- C5 witness: the shape invariant at a concrete raw decision. -/
theorem guardrails_output_shape_witness :
    (∀ r ∈ c5Raw.routes, 0 ≤ r.confidence ∧ r.confidence ≤ 1) ∧
    shapeOK (apply_guardrails c5Raw "make a widget" none c5Agents).response :=
  ⟨by intro r hr; simp [c5Raw] at hr; rw [hr]; norm_num,
   guardrails_output_shape c5Raw "make a widget" none c5Agents
    (by intro r hr; simp [c5Raw] at hr; rw [hr]; norm_num)⟩

/-- C10 counterexample: the supplied chat id `""` is non-null and absent from
the store, yet `execute` with `persist = true` does not fail with 404: the
empty string is falsy in the source's `if chat_id:` check
(`_ensure_chat_id_for_persist`), so a brand-new chat is silently created,
the store is mutated, and the request succeeds. -/
theorem unknown_chat_counterexample :
    (storeGetChat ({} : Store) "" = none) ∧
    ((execute stubRouteClarify stubInvokeOk "fresh-1" {}
        { query := "hello", chat_id := some "", persist := true
          : RouterExecuteRequest }).result.toOption.isSome = true) ∧
    ((storeGetChat (execute stubRouteClarify stubInvokeOk "fresh-1" {}
        { query := "hello", chat_id := some "", persist := true
          : RouterExecuteRequest }).store "fresh-1").isSome = true) := by
  refine ⟨rfl, ?_, ?_⟩ <;> decide

/-- C10 (amended: the supplied chat id must additionally be non-empty, since
`""` is falsy and takes the auto-create path): when `execute` is called with
`persist = true` and a non-empty chat id absent from the store, it fails with
the 404 error before any routing, invocation, message append or chat
creation: the outcome carries the original store and an empty event trace. -/
theorem unknown_chat_404
    (routeFn : RouterRouteRequest → Bool → RouterRouteResponse)
    (invokeFn : AgentId → AgentInvokeRequest →
      Except AgentInvokeError AgentInvokeResponse)
    (freshId : String) (store : Store) (req : RouterExecuteRequest)
    (cid : String) (hp : req.persist = true) (hcid : req.chat_id = some cid)
    (hne : cid ≠ "") (hmiss : storeGetChat store cid = none) :
    execute routeFn invokeFn freshId store req =
      { result := .error ⟨404, "Chat not found: " ++ cid⟩,
        store := store, events := [] } := by
  have he : ensure_chat_id_for_persist store freshId req.chat_id req.query =
      .error ⟨404, "Chat not found: " ++ cid⟩ := by
    rw [hcid]
    simp only [ensure_chat_id_for_persist]
    rw [if_neg hne, hmiss]
  simp only [execute]
  rw [if_pos hp, he]

/-- C10 witness: a concrete unknown chat id against a concrete store. -/
theorem unknown_chat_404_witness :
    execute stubRouteClarify stubInvokeOk "fresh-1" storeWithPending
      { query := "hi", chat_id := some "nope", persist := true
        : RouterExecuteRequest } =
      { result := .error ⟨404, "Chat not found: " ++ "nope"⟩,
        store := storeWithPending, events := [] } :=
  unknown_chat_404 stubRouteClarify stubInvokeOk "fresh-1" storeWithPending
    { query := "hi", chat_id := some "nope", persist := true } "nope"
    rfl rfl (by decide) (by decide)

theorem storeGetChat_clarifyPersistStore (s1 : Store) (cid : String)
    (req : RouterExecuteRequest) (rr : RouterRouteResponse) (p : RouteItem)
    (chat : Chat) (hget : storeGetChat s1 cid = some chat) :
    storeGetChat (clarifyPersistStore s1 cid req rr p) cid =
      some { chat with
             routed_agent_id := some p.agent_id.value,
             pending_continuation := some ⟨p.agent_id, req.query, req.context⟩,
             updated_at := s1.tick + 3 } := by
  unfold clarifyPersistStore
  have g2 := storeGetChat_createMessage s1 cid chat hget .user req.query
    none [] none
  have u2 := storeCreateMessage_tick s1 cid chat hget .user req.query
    none [] none
  have g3 := storeGetChat_createMessage _ cid _ g2 .assistant
    (strOr (pyJoin "\n" rr.clarifying_questions) "Please clarify your request.")
    (some ⟨p.agent_id, p.confidence, .auto⟩) [] (some rr.clarifying_questions)
  have u3 := storeCreateMessage_tick _ cid _ g2 .assistant
    (strOr (pyJoin "\n" rr.clarifying_questions) "Please clarify your request.")
    (some ⟨p.agent_id, p.confidence, .auto⟩) [] (some rr.clarifying_questions)
  have g4 := storeGetChat_setRouted _ cid _ g3 (some p.agent_id.value)
  have u4 := storeSetRoutedAgentId_tick _ cid _ g3 (some p.agent_id.value)
  have g5 := storeGetChat_setPending _ cid _ g4
    (some ⟨p.agent_id, req.query, req.context⟩)
  rw [g5, u4, u3, u2]

/-- C4: on a continuation turn (persist on, the supplied chat exists and has
a stored pending continuation) whose re-invocation succeeds — for an
arbitrary agent response `ar`, in particular one whose status is again
`needs_clarification` — the chat's pending continuation is cleared
unconditionally: after the turn the stored chat has
`pending_continuation = none` (a second clarification round is dropped
rather than chained). -/
theorem pending_cleared
    (routeFn : RouterRouteRequest → Bool → RouterRouteResponse)
    (invokeFn : AgentId → AgentInvokeRequest →
      Except AgentInvokeError AgentInvokeResponse)
    (freshId : String) (store : Store) (req : RouterExecuteRequest)
    (cid : String) (chat : Chat) (pending : PendingContinuation)
    (ar : AgentInvokeResponse)
    (hp : req.persist = true) (hcid : req.chat_id = some cid) (hne : cid ≠ "")
    (hget : storeGetChat store cid = some chat)
    (hpend : chat.pending_continuation = some pending)
    (hinv : invokeFn pending.agent_id
      { agent_id := pending.agent_id
        task := combined_task_of pending.original_query req.query
        context := combined_context_of pending.context_snapshot req.context } =
      .ok ar) :
    storeGetChat (execute routeFn invokeFn freshId store req).store cid =
      some { chat with pending_continuation := none,
                       updated_at := store.tick + 2 } := by
  rw [execute_persist_existing routeFn invokeFn freshId store req cid chat
    hp hcid hne hget]
  rw [executeContinuation_ok invokeFn store req cid chat pending ar
    hp hne hget hpend hinv]
  dsimp only
  unfold continuationStoreAfter
  have h1 := storeGetChat_createMessage store cid chat hget .user req.query
    none [] none
  have t1 := storeCreateMessage_tick store cid chat hget .user req.query
    none [] none
  have h2 := storeGetChat_createMessage _ cid _ h1 .assistant
    (continuationAssistantContent ar) (some ⟨pending.agent_id, 1, .forced⟩)
    ar.artifacts none
  have t2 := storeCreateMessage_tick _ cid _ h1 .assistant
    (continuationAssistantContent ar) (some ⟨pending.agent_id, 1, .forced⟩)
    ar.artifacts none
  have h3 := storeGetChat_setPending _ cid _ h2 none
  rw [h3, t2, t1]

/-- C4 witness: a concrete continuation turn whose re-invocation again
returns `needs_clarification`; the pending continuation is still cleared. -/
theorem pending_cleared_witness :
    storeGetChat (execute stubRouteClarify stubInvokeClarify "f7"
      storeWithPending
      { query := "project plan please", chat_id := some "c1", persist := true
        : RouterExecuteRequest }).store "c1" =
      some { chatC1 with pending_continuation := none,
                         updated_at := storeWithPending.tick + 2 } :=
  pending_cleared stubRouteClarify stubInvokeClarify "f7" storeWithPending
    { query := "project plan please", chat_id := some "c1", persist := true }
    "c1" chatC1 pendingMVP
    { agent_id := .planner, status := .needs_clarification,
      clarifying_questions := ["Which file should I change?"] }
    rfl rfl (by decide) (by decide) rfl rfl

/-- C3: with `persist = true` and no chat id supplied, if routing ends in a
clarification with a best-guess route then (1) the response of the first
call carries the freshly allocated chat id, (2) that chat stores the pending
continuation for the best-guess agent, and (3) a second `execute` call with
persist on and exactly the returned id takes the continuation path: whatever
router and agent back the second call, its trace is a single invocation of
the pending agent on the combined task — no routing is performed and the id
is never replaced. -/
theorem chat_id_stability
    (routeFn : RouterRouteRequest → Bool → RouterRouteResponse)
    (invokeFn : AgentId → AgentInvokeRequest →
      Except AgentInvokeError AgentInvokeResponse)
    (freshId : String) (store : Store) (req1 : RouterExecuteRequest)
    (hp1 : req1.persist = true) (hcid1 : req1.chat_id = none)
    (hfresh : freshId ≠ "") (p : RouteItem) (rest : List RouteItem)
    (hnc : (routeFn (routeReqOf req1 (some freshId))
      (decide (req1.mode = RoutingMode.forced))).needs_clarification = true)
    (hroutes : (routeFn (routeReqOf req1 (some freshId))
      (decide (req1.mode = RoutingMode.forced))).routes = p :: rest) :
    (execute routeFn invokeFn freshId store req1).result =
      .ok (clarifyPersistResponse freshId
        (routeFn (routeReqOf req1 (some freshId))
          (decide (req1.mode = RoutingMode.forced)))) ∧
    (storeGetChat (execute routeFn invokeFn freshId store req1).store
        freshId).map Chat.pending_continuation =
      some (some ⟨p.agent_id, req1.query, req1.context⟩) ∧
    ∀ (routeFn2 : RouterRouteRequest → Bool → RouterRouteResponse)
      (invokeFn2 : AgentId → AgentInvokeRequest →
        Except AgentInvokeError AgentInvokeResponse)
      (freshId2 : String) (req2 : RouterExecuteRequest),
      req2.persist = true → req2.chat_id = some freshId →
      (execute routeFn2 invokeFn2 freshId2
        (execute routeFn invokeFn freshId store req1).store req2).events =
        [Event.invokeEv p.agent_id
          (combined_task_of req1.query req2.query)
          (combined_context_of req1.context req2.context)] := by
  have hget1 := storeGetChat_createChat store
    (strTake (strOr req1.query "New chat") 40) freshId
  have hcont := executeContinuation_no_pending invokeFn
    (storeCreateChat store (strTake (strOr req1.query "New chat") 40)
      freshId).1 req1 freshId _ hget1 rfl
  have hrouted := executeRouted_clarify_persist routeFn invokeFn freshId
    (storeCreateChat store (strTake (strOr req1.query "New chat") 40)
      freshId).1 req1 freshId p rest hp1 hfresh hnc hroutes
  have hout1 : execute routeFn invokeFn freshId store req1 =
      { result := .ok (clarifyPersistResponse freshId
          (routeFn (routeReqOf req1 (some freshId))
            (decide (req1.mode = RoutingMode.forced)))),
        store := clarifyPersistStore
          (storeCreateChat store (strTake (strOr req1.query "New chat") 40)
            freshId).1 freshId req1
          (routeFn (routeReqOf req1 (some freshId))
            (decide (req1.mode = RoutingMode.forced))) p,
        events := [Event.routeEv (routeReqOf req1 (some freshId))
          (decide (req1.mode = RoutingMode.forced))] } := by
    rw [execute_persist_create routeFn invokeFn freshId store req1 hp1 hcid1]
    dsimp only
    rw [hcont]
    exact hrouted
  have hget2 := storeGetChat_clarifyPersistStore
    (storeCreateChat store (strTake (strOr req1.query "New chat") 40)
      freshId).1 freshId req1
    (routeFn (routeReqOf req1 (some freshId))
      (decide (req1.mode = RoutingMode.forced))) p _ hget1
  refine ⟨by rw [hout1], by rw [hout1, hget2]; rfl, ?_⟩
  intro routeFn2 invokeFn2 freshId2 req2 hp2 hcid2
  rw [hout1]
  rw [execute_persist_existing routeFn2 invokeFn2 freshId2 _ req2 freshId _
    hp2 hcid2 hfresh hget2]
  cases hinv : invokeFn2 p.agent_id
      { agent_id := p.agent_id
        task := combined_task_of req1.query req2.query
        context := combined_context_of req1.context req2.context } with
  | error e =>
    rw [executeContinuation_err invokeFn2 _ req2 freshId _
      ⟨p.agent_id, req1.query, req1.context⟩ e hp2 hfresh hget2 rfl hinv]
  | ok ar =>
    rw [executeContinuation_ok invokeFn2 _ req2 freshId _
      ⟨p.agent_id, req1.query, req1.context⟩ ar hp2 hfresh hget2 rfl hinv]

/-- The first-call request of the C3 witness. -/
def c3Req1 : RouterExecuteRequest := { query := "plan something", persist := true }

/-- The second-call request of the C3 witness. -/
def c3Req2 : RouterExecuteRequest :=
  { query := "a web app", chat_id := some "f1", persist := true }

/-- The best-guess route proposed by `stubRouteClarify`. -/
def c3Route : RouteItem :=
  { agent_id := .planner, confidence := 0.9, subtask := "" }

/-- C3 witness: the two-call composition at concrete inputs. -/
theorem chat_id_stability_witness :
    (execute stubRouteClarify stubInvokeOk "f1" {} c3Req1).result =
      .ok (clarifyPersistResponse "f1"
        (stubRouteClarify (routeReqOf c3Req1 (some "f1"))
          (decide (c3Req1.mode = RoutingMode.forced)))) ∧
    (storeGetChat (execute stubRouteClarify stubInvokeOk "f1" {} c3Req1).store
        "f1").map Chat.pending_continuation =
      some (some ⟨c3Route.agent_id, c3Req1.query, c3Req1.context⟩) ∧
    (execute stubRouteClarify stubInvokeOk "f2"
        (execute stubRouteClarify stubInvokeOk "f1" {} c3Req1).store
        c3Req2).events =
      [Event.invokeEv c3Route.agent_id
        (combined_task_of c3Req1.query c3Req2.query)
        (combined_context_of c3Req1.context c3Req2.context)] :=
  ⟨(chat_id_stability stubRouteClarify stubInvokeOk "f1" {} c3Req1 rfl rfl
      (by decide) c3Route [] rfl rfl).1,
   (chat_id_stability stubRouteClarify stubInvokeOk "f1" {} c3Req1 rfl rfl
      (by decide) c3Route [] rfl rfl).2.1,
   (chat_id_stability stubRouteClarify stubInvokeOk "f1" {} c3Req1 rfl rfl
      (by decide) c3Route [] rfl rfl).2.2 stubRouteClarify stubInvokeOk "f2"
      c3Req2 rfl rfl⟩

/-- C1 counterexample: the invoked task string contains the STRIPPED
original query, not the literal one — with the padded original query
`" alpha "` the combined task does not contain `" alpha "` even though it
contains `"alpha"` and the answer `"beta"`. -/
theorem continuation_round_trip_counterexample :
    strContains (combined_task_of " alpha " "beta") " alpha " = false ∧
    strContains (combined_task_of " alpha " "beta") "alpha" = true ∧
    strContains (combined_task_of " alpha " "beta") "beta" = true := by
  refine ⟨?_, ?_, ?_⟩ <;> decide

/-- C1 (amended: the task contains the stripped `Q1` — or the fixed
placeholder when `Q1` strips to empty — and the stripped `A2`, not the
literal texts): a continuation turn skips routing and invokes the pending
agent exactly once, on the task string of the spec's literal formula —
which contains `"ORIGINAL USER REQUEST:"`, `"USER CLARIFICATION ANSWER:"`,
the stripped-or-placeholder original query, and the stripped answer — and
on the snapshot context shallow-merged with the request context, request
keys winning. -/
theorem continuation_round_trip
    (routeFn : RouterRouteRequest → Bool → RouterRouteResponse)
    (invokeFn : AgentId → AgentInvokeRequest →
      Except AgentInvokeError AgentInvokeResponse)
    (freshId : String) (store : Store) (req : RouterExecuteRequest)
    (cid : String) (chat : Chat) (pending : PendingContinuation)
    (hp : req.persist = true) (hcid : req.chat_id = some cid) (hne : cid ≠ "")
    (hget : storeGetChat store cid = some chat)
    (hpend : chat.pending_continuation = some pending) :
    (execute routeFn invokeFn freshId store req).events =
      [Event.invokeEv pending.agent_id
        (combined_task_of pending.original_query req.query)
        (combined_context_of pending.context_snapshot req.context)] ∧
    combined_task_of pending.original_query req.query =
      specCombinedTask pending.original_query req.query ∧
    strContains (combined_task_of pending.original_query req.query)
      "ORIGINAL USER REQUEST:" = true ∧
    strContains (combined_task_of pending.original_query req.query)
      "USER CLARIFICATION ANSWER:" = true ∧
    strContains (combined_task_of pending.original_query req.query)
      (combinedOriginal pending.original_query) = true ∧
    strContains (combined_task_of pending.original_query req.query)
      (pyStrip req.query) = true ∧
    combined_context_of pending.context_snapshot req.context =
      ctxUpdate pending.context_snapshot req.context := by
  obtain ⟨c1, c2, c3, c4⟩ :=
    combined_task_contains pending.original_query req.query
  refine ⟨?_, combined_task_eq_spec _ _, c1, c2, c3, c4,
    combined_context_eq _ _⟩
  rw [execute_persist_existing routeFn invokeFn freshId store req cid chat
    hp hcid hne hget]
  cases hinv : invokeFn pending.agent_id
      { agent_id := pending.agent_id
        task := combined_task_of pending.original_query req.query
        context := combined_context_of pending.context_snapshot
          req.context } with
  | error e =>
    rw [executeContinuation_err invokeFn store req cid chat pending e
      hp hne hget hpend hinv]
  | ok ar =>
    rw [executeContinuation_ok invokeFn store req cid chat pending ar
      hp hne hget hpend hinv]

/-- The continuation request of the C1 witness. -/
def c1Req : RouterExecuteRequest :=
  { query := "  use React, $20k is fine  ", chat_id := some "c1",
    persist := true, context := [("deadline", Val.vstr "May 1")] }

/-- C1 witness: the continuation round-trip against the concrete pending
chat. -/
theorem continuation_round_trip_witness :
    (execute stubRouteClarify stubInvokeOk "f4" storeWithPending
        c1Req).events =
      [Event.invokeEv pendingMVP.agent_id
        (combined_task_of pendingMVP.original_query c1Req.query)
        (combined_context_of pendingMVP.context_snapshot c1Req.context)] ∧
    combined_task_of pendingMVP.original_query c1Req.query =
      specCombinedTask pendingMVP.original_query c1Req.query ∧
    strContains (combined_task_of pendingMVP.original_query c1Req.query)
      "ORIGINAL USER REQUEST:" = true ∧
    strContains (combined_task_of pendingMVP.original_query c1Req.query)
      "USER CLARIFICATION ANSWER:" = true ∧
    strContains (combined_task_of pendingMVP.original_query c1Req.query)
      (combinedOriginal pendingMVP.original_query) = true ∧
    strContains (combined_task_of pendingMVP.original_query c1Req.query)
      (pyStrip c1Req.query) = true ∧
    combined_context_of pendingMVP.context_snapshot c1Req.context =
      ctxUpdate pendingMVP.context_snapshot c1Req.context :=
  continuation_round_trip stubRouteClarify stubInvokeOk "f4"
    storeWithPending c1Req "c1" chatC1 pendingMVP rfl rfl (by decide)
    (by decide) rfl

theorem codegenPatchBranch_blocks (st : CodegenStages) (task : String)
    (context : CodegenCtx) (intake : IntakeResult) (plan : PlanResult)
    (error_logs : String)
    (hdel : patch_deletes_or_moves_tests
      ((codegenNonSnippetFinal st task context intake plan error_logs).1) =
        true)
    (hexp : user_explicitly_requested_test_deletion task = false) :
    (codegenPatchBranch st task context intake plan error_logs).status =
      AgentStatus.needs_clarification ∧
    (codegenPatchBranch st task context intake plan error_logs).artifacts =
      [] := by
  unfold codegenPatchBranch
  dsimp only
  by_cases hpe : pyStrip
      (codegenNonSnippetFinal st task context intake plan error_logs).1 = ""
  · rw [if_pos hpe]
    exact ⟨rfl, rfl⟩
  · rw [if_neg hpe]
    unfold codegenFinish
    dsimp only
    rw [if_pos (by simp [hdel, hexp])]
    exact ⟨rfl, rfl⟩

/-- C7: a codegen run that is not in snippet mode and whose final patch
deletes, renames or moves a test-convention path returns status
`needs_clarification` with no artifacts (in particular no patch artifact),
unless the task text explicitly pairs a test keyword with
delete/remove/rename/move. -/
theorem codegen_test_protection
    (st : CodegenStages) (task : String) (context0 : CodegenCtx)
    (hi : (st.run_intake task context0).needs_clarification = false)
    (hsm : codegenSnippetModeOf st task context0 = false)
    (hdel : patch_deletes_or_moves_tests
      (codegenFinalPatch st task context0) = true)
    (hexp : user_explicitly_requested_test_deletion task = false) :
    (codegenInvoke st task context0).status =
      AgentStatus.needs_clarification ∧
    (codegenInvoke st task context0).artifacts = [] := by
  unfold codegenSnippetModeOf at hsm
  unfold codegenFinalPatch at hdel
  dsimp only at hdel
  unfold codegenInvoke
  rw [if_neg (by simp [hi])]
  dsimp only
  rw [if_neg (by
    intro hcon
    exact Bool.false_ne_true (hsm.symm.trans hcon.2.1))]
  rw [if_neg (fun h => Bool.false_ne_true (hsm.symm.trans h))]
  exact codegenPatchBranch_blocks st task _ _ _ _ hdel hexp

/-- Deterministic stage stub: the patch and snippet texts are fixed
parameters, every LLM-backed stage returns a neutral value. -/
def stubStages (patchText snippetText : String) : CodegenStages :=
  { run_intake := fun _ _ =>
      { needs_clarification := false, questions := [], assumptions := [],
        profile := {}, goal := "feature", verification_steps := [] }
    scan_project := fun _ _ _ => {}
    run_plan := fun _ _ _ _ =>
      { plan := [], files_to_touch := [], approach := "",
        verification_steps := [], risks := [] }
    run_snippet := fun _ _ _ _ _ => snippetText
    run_patch := fun _ _ _ _ _ _ => { patch := patchText }
    run_review := fun _ _ _ _ => {}
    run_solid_critic := fun _ _ _ _ _ => {}
    run_revise := fun _ _ _ p _ _ => { patch := p }
    run_debug_fix := fun _ _ _ _ =>
      { patch := patchText, review := {}, solid := {} }
    run_report := fun _ _ _ _ _ _ _ _ => { notes := [] }
    clean_verification_steps_final := fun vs _ _ _ => vs
    report_mentions_only_touched_files := fun _ _ => true
    spring_required_markers := fun _ => [] }

/-- A patch that deletes a test file. -/
def c7Patch : String :=
  "diff --git a/tests/test_app.py b/tests/test_app.py\ndeleted file mode 100644\n"

/-- A context with one real file (patch mode, not snippet mode). -/
def c7Ctx : CodegenCtx := { files := [⟨"app.py", "x = 1"⟩] }

/-- C7 witness: the deleting patch at a task that does not request test
deletion is blocked. -/
theorem codegen_test_protection_witness :
    (codegenInvoke (stubStages c7Patch "") "remove dead code" c7Ctx).status =
      AgentStatus.needs_clarification ∧
    (codegenInvoke (stubStages c7Patch "") "remove dead code" c7Ctx).artifacts =
      [] :=
  codegen_test_protection (stubStages c7Patch "") "remove dead code" c7Ctx
    rfl (by decide) (by decide) (by decide)

/-- The snippet output of the C8 failing input: a canonical unified diff. -/
def c8Snippet : String := "+++ b/app.py\n@@ -1 +1 @@\n-old\n+new\n"

/-- C8: contradicted by the code.  The marker regexes put `\b` after
`+++`/`@@`, and `\b` only matches between a word and a non-word character,
so the canonical markers — which are followed by a space — are not
detected.  This snippet-mode run generates a unified diff containing `+++`
and `@@`, yet `snippet_has_diff_markers` reports false and the output is
passed through with status ok as a patch artifact instead of being
rejected. -/
theorem snippet_diff_marker_bug :
    strContains c8Snippet "+++" = true ∧
    strContains c8Snippet "@@" = true ∧
    snippet_has_diff_markers c8Snippet = false ∧
    (codegenInvoke (stubStages "" c8Snippet)
      "Generate a widget module" {}).status = AgentStatus.ok ∧
    (codegenInvoke (stubStages "" c8Snippet)
      "Generate a widget module" {}).artifacts =
      [Artifact.patch c8Snippet,
       Artifact.verification_steps
         ["Compile/build the generated code",
          "Run the provided entrypoint/example"]] := by
  refine ⟨?_, ?_, ?_, ?_, ?_⟩ <;> decide

end GrandRouter
